import Mathlib

/-!
# Verification of the Leo compiler core against its specification

This file gives a shallow embedding, at the value (witness-synthesis) level, of:

* the signed-integer division gadget
  (`src/gadgets/src/signed_integer/arithmetic/div.rs`) and subtraction gadget
  (`src/gadgets/src/signed_integer/arithmetic/sub.rs`);
* the compiler integer value domain
  (`src/compiler/src/value/integer/integer.rs`): `allocate_type`, `from_input`,
  `get_type`, and the constraint-namespace label builders of the arithmetic
  wrappers;
* the stage-dump CLI driver (`src/stages/src/main.rs`);
* the AST reconstructing director (`src/ast/src/reducer/reconstructing_director.rs`),
  restricted to the fragment that carries the `in_circuit` flag.

Gadget primitives (the `Int8`..`Int128` bit-vector types, their `PartialEq`,
`neg`, `add`, `evaluate_equal`, `conditionally_select` and comparator) are part
of the repository's gadget crate but their defining files are not in the
source tree given here; they are modelled from the specification (§4.1, §4.2:
a bit-vector of width `n` holding a constant or allocated variable with a
tracked two's-complement value; ripple-carry add, two's-complement negate).
The model works at witness level: every gadget carries its tracked value.
-/

namespace Leo

/-! ## Two's-complement value arithmetic -/

/-- Wrap an integer into the two's-complement range `[-2^(n-1), 2^(n-1))`
of a width-`n` signed machine integer. -/
def wrap (n : Nat) (x : Int) : Int :=
  (x + 2 ^ (n - 1)) % 2 ^ n - 2 ^ (n - 1)

/-- The minimum value of a width-`n` signed machine integer
(`<$gadget as Int>::IntegerType::MIN`). -/
def intMin (n : Nat) : Int := -(2 ^ (n - 1))

/-- The natural-number two's-complement encoding of `x` at width `n`
(the little-endian bit sequence `bits` of the gadget, read as a number). -/
def toNat2c (n : Nat) (x : Int) : Nat := (x % 2 ^ n).toNat

/-! ## The gadget value model

Modelled from the spec (§4.1): the repository's signed bit-vector gadget
(`leo-gadgets` `Int8` .. `Int128`, sources not under `src/`) holds either a
compile-time constant value or an ordered sequence of allocated boolean
variables (one per bit, little-endian) plus a tracked integer value.  At
witness level both shapes carry a value, so the model is a constant/allocated
tag together with the tracked value. -/

/-- Modelled from the spec: a width-`n` signed integer gadget at witness
level. `isConst` distinguishes a compile-time constant from an allocated
variable; `val` is the tracked two's-complement value. -/
structure IntG (n : Nat) where
  isConst : Bool
  val : Int
  deriving Repr, DecidableEq

/-- Modelled from the spec: a boolean gadget at witness level
(`Boolean::Constant` versus an allocated bit, with its value). -/
structure BoolG where
  isConst : Bool
  val : Bool
  deriving Repr, DecidableEq

/-- The constructor `Self::constant(v)` — a compile-time constant gadget. -/
def constG (n : Nat) (v : Int) : IntG n := ⟨true, wrap n v⟩

/-- The allocation `Self::alloc(cs, || Ok(v))` — an allocated gadget holding witness `v`. -/
def allocG (n : Nat) (v : Int) : IntG n := ⟨false, wrap n v⟩

/-- Modelled from the spec: `PartialEq` on the integer gadget compares the
tracked values (both must be present; at witness level they always are). -/
def eqG {n : Nat} (a b : IntG n) : Bool := a.val == b.val

/-- Modelled from the spec: `evaluate_equal` emits an equality gadget whose
witness value is equality of the tracked values; the result is constant only
when both operands are. -/
def evalEq {n : Nat} (a b : IntG n) : BoolG :=
  ⟨a.isConst && b.isConst, a.val == b.val⟩

/-- Modelled from the spec: `Boolean::and`. -/
def bAnd (a b : BoolG) : BoolG := ⟨a.isConst && b.isConst, a.val && b.val⟩

/-- Modelled from the spec: `evaluate_equal` on two boolean gadgets
(used for the msb comparison). -/
def bEvalEq (a b : BoolG) : BoolG := ⟨a.isConst && b.isConst, a.val == b.val⟩

/-- Modelled from the spec: ripple-carry `add` — the tracked value is the
two's-complement (wrapping) sum. -/
def addG {n : Nat} (a b : IntG n) : IntG n :=
  ⟨a.isConst && b.isConst, wrap n (a.val + b.val)⟩

/-- Modelled from the spec: two's-complement `neg`. -/
def negG {n : Nat} (a : IntG n) : IntG n := ⟨a.isConst, wrap n (-a.val)⟩

/-- Modelled from the spec: `conditionally_select(cs, cond, first, second)`
returns `first` when the condition's value is true, else `second`. -/
def condSelect {n : Nat} (c : BoolG) (x y : IntG n) : IntG n :=
  bif c.val then x else y

/-- Modelled from the spec: `conditionally_select` on boolean gadgets. -/
def bCondSelect (c x y : BoolG) : BoolG := bif c.val then x else y

/-- Modelled from the spec: `greater_than_or_equal` (the signed comparator
gadget): witness value is signed `a ≥ b` on the tracked values. -/
def geG {n : Nat} (a b : IntG n) : BoolG :=
  ⟨a.isConst && b.isConst, b.val ≤ a.val⟩

/-- Bit `i` of a gadget (`self.bits[i]`, little-endian two's complement of
the tracked value). -/
def bitG {n : Nat} (a : IntG n) (i : Nat) : BoolG :=
  ⟨a.isConst, (toNat2c n a.val).testBit i⟩

/-- The most significant bit `self.bits.last()`. -/
def msbG {n : Nat} (a : IntG n) : BoolG := bitG a (n - 1)

/-- Modelled from the spec: `Self::result_is_constant(a, b)` — the result of a
binary gadget is a compile-time constant exactly when both operands are. -/
def resultIsConstant {n : Nat} (a b : IntG n) : Bool := a.isConst && b.isConst

/-- The error type of the signed-integer gadgets
(`leo-gadgets` `SignedIntegerError`; only the variant used by `div.rs`
is needed at value level). -/
inductive SignedIntegerError where
  | DivisionByZero
  deriving Repr, DecidableEq

/-! ## The signed division gadget (`src/gadgets/src/signed_integer/arithmetic/div.rs`)

The embedding mirrors `fn div` line by line at witness level.  Constraint
emission is dropped (namespace strings do not affect values); every
`conditionally_select` / `evaluate_equal` / arithmetic call is kept in source
order. -/

/-- The gadget `sub` from `src/gadgets/src/signed_integer/arithmetic/sub.rs`:
negate `other`, then add. -/
def subG {n : Nat} (a b : IntG n) : IntG n := addG a (negG b)

/-- The sequence of numerator bit positions visited by the division loop:
`a.bits.iter().rev().enumerate().skip(1)` walks the little-endian bit vector
from the most significant end, and `skip(1)` drops the first (most
significant) element, so the visited bit indices are `n-2, n-3, …, 0`. -/
def divIterBits (n : Nat) : List Nat := ((List.range n).reverse).drop 1

/-- One iteration of the division loop body (`div.rs` lines 159–214) at
witness level, in source order.  The running state is `(r, q)`; `j` is the
numerator bit index being processed (the code's `index` after the decrement,
which also equals the exponent of the code's `bit_value`). -/
def divStep (n : Nat) (one : IntG n) (a b : IntG n)
    (rq : IntG n × IntG n) (j : Nat) : IntG n × IntG n :=
  let r := rq.1
  let q := rq.2
  -- Left shift remainder by 1
  let r := addG r r
  -- Set the least-significant bit of remainder to bit j of the numerator
  let r_new := addG r one
  let r := condSelect (bitG a j) r_new r
  let can_sub := geG r b
  let sub := subG r b
  let r := condSelect can_sub sub r
  -- q_new.bits[index] = true_bit; *value += bit_value  (bit_value = 2^index)
  let q_new : IntG n := ⟨q.isConst, wrap n (q.val + 2 ^ j)⟩
  let q := condSelect can_sub q_new q
  (r, q)

/-- The division main loop (`div.rs` lines 153–214): fold the loop body over
the visited bit positions, starting from `(r, q) = (zero, zero)`. -/
def divLoop (n : Nat) (one zero : IntG n) (a b : IntG n) : IntG n × IntG n :=
  (divIterBits n).foldl (divStep n one a b) (zero, zero)

/-- The gadget `fn div` from `src/gadgets/src/signed_integer/arithmetic/div.rs`
(lines 34–247) at witness level, in source order. -/
def divG (n : Nat) (self other : IntG n) :
    Except SignedIntegerError (IntG n) :=
  if eqG other (constG n 0) then .error .DivisionByZero else
  let is_constant : BoolG := ⟨true, resultIsConstant self other⟩
  let allocated_true : BoolG := ⟨false, true⟩
  let _true_bit := bCondSelect is_constant ⟨true, true⟩ allocated_true
  let allocated_one := allocG n 1
  let one := condSelect is_constant (constG n 1) allocated_one
  let allocated_zero := allocG n 0
  let zero := condSelect is_constant (constG n 0) allocated_zero
  -- if the numerator is 0, return 0
  let self_is_zero : BoolG := ⟨true, eqG self (constG n 0)⟩
  let min := constG n (intMin n)
  let other_is_min := evalEq other min
  let self_is_min := evalEq self min
  let both_min := bAnd other_is_min self_is_min
  -- if other is the minimum, set other to -1 so the calculation will not fail
  let negative_one := negG allocated_one
  let a_valid := addG min allocated_one
  let a_set := condSelect self_is_min a_valid self
  let b_set := condSelect other_is_min negative_one other
  -- If the most significant bits of both numbers are equal, the quotient is positive
  let b_msb := msbG other
  let a_msb := msbG self
  let positive := bEvalEq a_msb b_msb
  -- Get the absolute value of each number
  let a_comp := negG a_set
  let a := condSelect a_msb a_comp self
  let b_comp := negG b_set
  let b := condSelect b_msb b_comp b_set
  let rq := divLoop n one zero a b
  let q := rq.2
  let q_neg := negG q
  let q := condSelect positive q q_neg
  -- set to zero if we know result is fractional
  let q := condSelect other_is_min allocated_zero q
  -- set to one if we know result is division of the minimum number by itself
  let q := condSelect both_min allocated_one q
  .ok (condSelect self_is_zero self q)

/-! ## The signed integer kinds -/

/-- The five signed integer kinds of the language. -/
inductive SignedIntKind where
  | i8 | i16 | i32 | i64 | i128
  deriving Repr, DecidableEq

/-- The bit width of a signed integer kind. -/
def SignedIntKind.width : SignedIntKind → Nat
  | .i8 => 8
  | .i16 => 16
  | .i32 => 32
  | .i64 => 64
  | .i128 => 128

/-! ## The compiler integer value domain
(`src/compiler/src/value/integer/integer.rs`) -/

/-- A source span; the embedded code paths use only the start line and
column (`span.line_start`, `span.col_start`). -/
structure Span where
  line_start : Nat
  col_start : Nat
  deriving Repr, DecidableEq

/-- The ten integer types of the language (`leo_asg::IntegerType`,
modelled from the spec §3: ten integer widths×signedness). -/
inductive IntegerType where
  | u8 | u16 | u32 | u64 | u128
  | i8 | i16 | i32 | i64 | i128
  deriving Repr, DecidableEq

/-- Modelled from the spec: an unsigned width-`n` bit-vector gadget at
witness level (the snarkvm `UInt8` .. `UInt128` types are outside the
repository); `val` is the tracked value. -/
structure UIntG (n : Nat) where
  isConst : Bool
  val : Nat
  deriving Repr, DecidableEq

/-- The tagged integer value union (`enum Integer`, `integer.rs` lines
41–53): one variant per kind, each wrapping the kind's gadget. -/
inductive Integer where
  | U8 (g : UIntG 8)
  | U16 (g : UIntG 16)
  | U32 (g : UIntG 32)
  | U64 (g : UIntG 64)
  | U128 (g : UIntG 128)
  | I8 (g : IntG 8)
  | I16 (g : IntG 16)
  | I32 (g : IntG 32)
  | I64 (g : IntG 64)
  | I128 (g : IntG 128)
  deriving Repr, DecidableEq

/-- The method `Integer::get_type` (`integer.rs` lines 128–142). -/
def Integer.get_type : Integer → IntegerType
  | .U8 _ => .u8
  | .U16 _ => .u16
  | .U32 _ => .u32
  | .U64 _ => .u64
  | .U128 _ => .u128
  | .I8 _ => .i8
  | .I16 _ => .i16
  | .I32 _ => .i32
  | .I64 _ => .i64
  | .I128 _ => .i128

/-- Accumulate a list of decimal digit characters into a number; `none`
when the list is empty or contains a non-digit.  Models the digit part of
Rust's integer `FromStr`. -/
def parseDigits (cs : List Char) : Option Nat :=
  if cs.isEmpty then none
  else cs.foldl
    (fun acc c => acc.bind fun m =>
      if c.isDigit then some (m * 10 + (c.toNat - '0'.toNat)) else none)
    (some 0)

/-- Modelled from Rust `str::parse::<uN>`: an optional leading `+`, then
decimal digits; the value must fit in `n` bits. -/
def parseUnsigned (n : Nat) (s : String) : Option Nat :=
  let digits := match s.data with
    | '+' :: rest => rest
    | cs => cs
  (parseDigits digits).bind fun v => if v < 2 ^ n then some v else none

/-- Modelled from Rust `str::parse::<iN>`: an optional sign, then decimal
digits; the value must fit in the signed width-`n` range. -/
def parseSigned (n : Nat) (s : String) : Option Int :=
  match s.data with
  | '-' :: rest => (parseDigits rest).bind fun v =>
      if (v : Int) ≤ 2 ^ (n - 1) then some (-(v : Int)) else none
  | '+' :: rest => (parseDigits rest).bind fun v =>
      if (v : Int) < 2 ^ (n - 1) then some (v : Int) else none
  | _ => (parseDigits s.data).bind fun v =>
      if (v : Int) < 2 ^ (n - 1) then some (v : Int) else none

/-- The integer error kinds (spec §7; constructor names follow the
`IntegerError` constructors used in `integer.rs`). -/
inductive IntegerError where
  | invalidInteger (value : String) (span : Span)
  | missingInteger (name : String) (span : Span)
  | invalidIndex (span : Span)
  | binaryOperation (op : String) (span : Span)
  | negateOperation (span : Span)
  deriving Repr, DecidableEq

/-- The result of a fallible compiler routine.  `panicked e` records a Rust
panic — an `unwrap()` of an `Err(e)` — as distinct from returning the
error. -/
inductive Outcome (α : Type) where
  | ok (a : α)
  | err (e : IntegerError)
  | panicked (e : IntegerError)
  deriving Repr, DecidableEq

/-- The method `Integer::allocate_type` (`integer.rs` lines 144–295) at witness level.
Per kind: `option.map(|s| s.parse().map_err(invalid_integer).unwrap())` runs
first (a parse failure therefore panics on the `unwrap`), then `alloc` runs
with the parsed witness — with no witness it fails with
`SynthesisError::AssignmentMissing`, mapped to `missing_integer`. -/
def Integer.allocate_type (integer_type : IntegerType) (name : String)
    (option : Option String) (span : Span) : Outcome Integer :=
  match integer_type with
  | .u8 =>
    match option with
    | some s =>
      match parseUnsigned 8 s with
      | some v => .ok (.U8 ⟨false, v⟩)
      | none => .panicked (.invalidInteger s span)
    | none => .err (.missingInteger (name ++ ": u8") span)
  | .u16 =>
    match option with
    | some s =>
      match parseUnsigned 16 s with
      | some v => .ok (.U16 ⟨false, v⟩)
      | none => .panicked (.invalidInteger s span)
    | none => .err (.missingInteger (name ++ ": u16") span)
  | .u32 =>
    match option with
    | some s =>
      match parseUnsigned 32 s with
      | some v => .ok (.U32 ⟨false, v⟩)
      | none => .panicked (.invalidInteger s span)
    | none => .err (.missingInteger (name ++ ": u32") span)
  | .u64 =>
    match option with
    | some s =>
      match parseUnsigned 64 s with
      | some v => .ok (.U64 ⟨false, v⟩)
      | none => .panicked (.invalidInteger s span)
    | none => .err (.missingInteger (name ++ ": u64") span)
  | .u128 =>
    match option with
    | some s =>
      match parseUnsigned 128 s with
      | some v => .ok (.U128 ⟨false, v⟩)
      | none => .panicked (.invalidInteger s span)
    | none => .err (.missingInteger (name ++ ": u128") span)
  | .i8 =>
    match option with
    | some s =>
      match parseSigned 8 s with
      | some v => .ok (.I8 ⟨false, v⟩)
      | none => .panicked (.invalidInteger s span)
    | none => .err (.missingInteger (name ++ ": i8") span)
  | .i16 =>
    match option with
    | some s =>
      match parseSigned 16 s with
      | some v => .ok (.I16 ⟨false, v⟩)
      | none => .panicked (.invalidInteger s span)
    | none => .err (.missingInteger (name ++ ": i16") span)
  | .i32 =>
    match option with
    | some s =>
      match parseSigned 32 s with
      | some v => .ok (.I32 ⟨false, v⟩)
      | none => .panicked (.invalidInteger s span)
    | none => .err (.missingInteger (name ++ ": i32") span)
  | .i64 =>
    match option with
    | some s =>
      match parseSigned 64 s with
      | some v => .ok (.I64 ⟨false, v⟩)
      | none => .panicked (.invalidInteger s span)
    | none => .err (.missingInteger (name ++ ": i64") span)
  | .i128 =>
    match option with
    | some s =>
      match parseSigned 128 s with
      | some v => .ok (.I128 ⟨false, v⟩)
      | none => .panicked (.invalidInteger s span)
    | none => .err (.missingInteger (name ++ ": i128") span)

/-- Modelled from the spec (§6): a tagged program input value. -/
inductive InputValue where
  | boolean (b : Bool)
  | integer (t : IntegerType) (number : String)
  | field (s : String)
  | group (s : String)
  | address (s : String)
  | char (c : Char)
  | array (vs : List InputValue)
  | tuple (vs : List InputValue)

/-- Modelled from the spec: `InputValue`'s `Display` rendering (only its
existence matters to the embedded claims; the error payload carries it). -/
def displayInputValue : InputValue → String
  | .boolean b => toString b
  | .integer _ number => number
  | .field s => s
  | .group s => s
  | .address s => s
  | .char c => String.singleton c
  | .array vs =>
      "[" ++ String.intercalate ", "
        (vs.attach.map (fun x => displayInputValue x.1)) ++ "]"
  | .tuple vs =>
      "(" ++ String.intercalate ", "
        (vs.attach.map (fun x => displayInputValue x.1)) ++ ")"
decreasing_by
  all_goals
    have := List.sizeOf_lt_of_mem x.2
    simp only [InputValue.array.sizeOf_spec, InputValue.tuple.sizeOf_spec]
    omega

/-- The method `Integer::from_input` (`integer.rs` lines 297–317): accept any
`InputValue::Integer(_type_, number)` — the tag `_type_` is bound but never
compared — reject any non-integer input with `invalid_integer`, then
delegate to `allocate_type`. -/
def Integer.from_input (integer_type : IntegerType) (name : String)
    (integer_value : Option InputValue) (span : Span) : Outcome Integer :=
  match integer_value with
  | some input =>
    match input with
    | .integer _type_ number => Integer.allocate_type integer_type name (some number) span
    | _ => .err (.invalidInteger (displayInputValue input) span)
  | none => Integer.allocate_type integer_type name none span

/-- The `Display` of an `Integer` (`integer.rs` lines 55–64) at witness
level: the tracked value always exists, so the decimal rendering of the
value is printed. -/
def displayInteger : Integer → String
  | .U8 g => Nat.repr g.val
  | .U16 g => Nat.repr g.val
  | .U32 g => Nat.repr g.val
  | .U64 g => Nat.repr g.val
  | .U128 g => Nat.repr g.val
  | .I8 g => Int.repr g.val
  | .I16 g => Int.repr g.val
  | .I32 g => Int.repr g.val
  | .I64 g => Int.repr g.val
  | .I128 g => Int.repr g.val

/-- The constraint namespace label of `Integer::negate`
(`integer.rs` line 324): `format!("enforce -{} {}:{}", self, line, col)`. -/
def negateNamespace (a : Integer) (span : Span) : String :=
  "enforce -" ++ displayInteger a ++ " "
    ++ Nat.repr span.line_start ++ ":" ++ Nat.repr span.col_start

/-- The constraint namespace label of `Integer::add` (`integer.rs`
line 339): `format!("enforce {} + {} {}:{}", self, other, line, col)`. -/
def addNamespace (a b : Integer) (span : Span) : String :=
  "enforce " ++ displayInteger a ++ " + " ++ displayInteger b ++ " "
    ++ Nat.repr span.line_start ++ ":" ++ Nat.repr span.col_start

/-- The constraint namespace label of `Integer::sub` (`integer.rs`
line 355). -/
def subNamespace (a b : Integer) (span : Span) : String :=
  "enforce " ++ displayInteger a ++ " - " ++ displayInteger b ++ " "
    ++ Nat.repr span.line_start ++ ":" ++ Nat.repr span.col_start

/-- The constraint namespace label of `Integer::mul` (`integer.rs`
line 371). -/
def mulNamespace (a b : Integer) (span : Span) : String :=
  "enforce " ++ displayInteger a ++ " * " ++ displayInteger b ++ " "
    ++ Nat.repr span.line_start ++ ":" ++ Nat.repr span.col_start

/-- The constraint namespace label of `Integer::div` (`integer.rs`
line 387): the operator rendered is the Unicode division sign `÷`. -/
def divNamespace (a b : Integer) (span : Span) : String :=
  "enforce " ++ displayInteger a ++ " ÷ " ++ displayInteger b ++ " "
    ++ Nat.repr span.line_start ++ ":" ++ Nat.repr span.col_start

/-- The constraint namespace label of `Integer::pow` (`integer.rs`
line 403). -/
def powNamespace (a b : Integer) (span : Span) : String :=
  "enforce " ++ displayInteger a ++ " ** " ++ displayInteger b ++ " "
    ++ Nat.repr span.line_start ++ ":" ++ Nat.repr span.col_start

/-- A string is ASCII when every character's code point is below 128. -/
def asciiOnly (s : String) : Bool := s.data.all (fun c => c.toNat < 128)

/-! ## The stage-dump CLI driver (`src/stages/src/main.rs`) -/

/-- The stage selection flags of the stage-dump CLI
(`--all`, `--initial`, `--canonicalize`, `--inference`). -/
structure StageFlags where
  all : Bool
  initial : Bool
  canonicalization : Bool
  inference : Bool
  deriving Repr, DecidableEq

/-- One run of the stage-dump driver `main` (`src/stages/src/main.rs`,
lines 109–134), at the level of stage outcomes and written files.  The
parser, canonicalizer, ASG builder and type-inference combiner live in
crates outside `src/` and are taken as arguments; `write_ast` is modelled
as appending the file name to the write log.  Returns the run's result
together with the files written, in program order: the `?` on a failing
stage aborts the run after the earlier stages' selected dumps have already
been written. -/
def stagesMain {Ast Asg E : Type} (flags : StageFlags)
    (parse : Except E Ast)
    (canonicalize : Ast → Except E Ast)
    (asgBuild : Ast → Except E Asg)
    (inference : Ast → Asg → Except E Ast) :
    Except E Unit × List String :=
  match parse with
  | .error e => (.error e, [])
  | .ok ast =>
    let written := if flags.all || flags.initial then ["initial.json"] else []
    match canonicalize ast with
    | .error e => (.error e, written)
    | .ok ast2 =>
      let written := written ++
        (if flags.all || flags.canonicalization then ["canonicalization.json"] else [])
      match asgBuild ast2 with
      | .error e => (.error e, written)
      | .ok asg =>
        match inference ast2 asg with
        | .error e => (.error e, written)
        | .ok _ =>
          let written := written ++
            (if flags.all || flags.inference then ["type_inference.json"] else [])
          (.ok (), written)

/-! ## The per-iteration behaviour stated by the loop claim -/

/-- The per-iteration operation that the specification's loop claim describes,
written from the claim's words on plain two's-complement values: shift the
remainder left by one, inject numerator bit `i` into the least-significant
position, conditionally subtract the divisor when the remainder is greater
than or equal to it (signed comparison), conditionally set quotient bit `i`. -/
def claimedDivStep (n : Nat) (a b : IntG n) (rq : Int × Int) (i : Nat) :
    Int × Int :=
  let r := wrap n (2 * rq.1)
  let r := bif (toNat2c n a.val).testBit i then wrap n (r + 1) else r
  let canSub := decide (b.val ≤ r)
  bif canSub then (wrap n (r - b.val), wrap n (rq.2 + 2 ^ i)) else (r, rq.2)

/-! ## The AST (`leo_ast`), as traversed by the reconstructing director

The node types are modelled from the fields the director
(`src/ast/src/reducer/reconstructing_director.rs`) reads and rebuilds; leaf
payloads it only clones (operators, numbers, access strings) are carried as
plain data. -/

/-- An identifier: a name with a source span. -/
structure Identifier where
  name : String
  span : Span
  deriving Repr, DecidableEq

/-- A group tuple literal; the director only passes it to its hook. -/
structure GroupTuple where
  x : String
  y : String
  span : Span
  deriving Repr, DecidableEq

/-- A group value: a single coordinate or a tuple. -/
inductive GroupValue where
  | single (s : String) (span : Span)
  | tuple (t : GroupTuple)
  deriving Repr, DecidableEq

/-- A literal value expression; only the `group` variant is recursed into. -/
inductive ValueExpression where
  | address (s : String) (span : Span)
  | boolean (s : String) (span : Span)
  | char (c : Char) (span : Span)
  | field (s : String) (span : Span)
  | group (g : GroupValue)
  | implicit (s : String) (span : Span)
  | integer (t : IntegerType) (s : String) (span : Span)
  deriving Repr, DecidableEq

/-- A binary operator (cloned by the director). -/
abbrev BinaryOperation := String

/-- A unary operator (cloned by the director). -/
abbrev UnaryOperation := String

/-- The language types; `array`, `tuple` and `circuit` are recursed into. -/
inductive AstType where
  | address
  | boolean
  | char
  | fieldType
  | group
  | integer (t : IntegerType)
  | array (element : AstType) (dimensions : List Nat)
  | tuple (types : List AstType)
  | circuit (identifier : Identifier)
  | selfType

mutual

/-- An expression (the closed variant set of §3). -/
inductive Expression where
  | identifier (i : Identifier)
  | value (v : ValueExpression)
  | binary (b : BinaryExpression)
  | unary (u : UnaryExpression)
  | ternary (t : TernaryExpression)
  | cast (c : CastExpression)
  | arrayInline (a : ArrayInlineExpression)
  | arrayInit (a : ArrayInitExpression)
  | arrayAccess (a : ArrayAccessExpression)
  | arrayRangeAccess (a : ArrayRangeAccessExpression)
  | tupleInit (t : TupleInitExpression)
  | tupleAccess (t : TupleAccessExpression)
  | circuitInit (c : CircuitInitExpression)
  | circuitMemberAccess (c : CircuitMemberAccessExpression)
  | circuitStaticFunctionAccess (c : CircuitStaticFunctionAccessExpression)
  | call (c : CallExpression)

inductive BinaryExpression where
  | mk (left : Expression) (right : Expression) (op : BinaryOperation) (span : Span)

inductive UnaryExpression where
  | mk (inner : Expression) (op : UnaryOperation) (span : Span)

inductive TernaryExpression where
  | mk (condition : Expression) (if_true : Expression) (if_false : Expression) (span : Span)

inductive CastExpression where
  | mk (inner : Expression) (target_type : AstType) (span : Span)

inductive SpreadOrExpression where
  | expression (e : Expression)
  | spread (e : Expression)

inductive ArrayInlineExpression where
  | mk (elements : List SpreadOrExpression) (span : Span)

inductive ArrayInitExpression where
  | mk (element : Expression) (dimensions : List Nat) (span : Span)

inductive ArrayAccessExpression where
  | mk (array : Expression) (index : Expression) (span : Span)

inductive ArrayRangeAccessExpression where
  | mk (array : Expression) (left : Option Expression) (right : Option Expression) (span : Span)

inductive TupleInitExpression where
  | mk (elements : List Expression) (span : Span)

inductive TupleAccessExpression where
  | mk (tuple : Expression) (index : Nat) (span : Span)

inductive CircuitImpliedVariableDefinition where
  | mk (identifier : Identifier) (expression : Option Expression)

inductive CircuitInitExpression where
  | mk (name : Identifier) (members : List CircuitImpliedVariableDefinition) (span : Span)

inductive CircuitMemberAccessExpression where
  | mk (circuit : Expression) (name : Identifier) (span : Span)

inductive CircuitStaticFunctionAccessExpression where
  | mk (circuit : Expression) (name : Identifier) (span : Span)

inductive CallExpression where
  | mk (function : Expression) (arguments : List Expression) (span : Span)

end

mutual

/-- A statement (the closed variant set of §3). -/
inductive Statement where
  | ret (r : ReturnStatement)
  | definition (d : DefinitionStatement)
  | assign (a : AssignStatement)
  | conditional (c : ConditionalStatement)
  | iteration (i : IterationStatement)
  | console (c : ConsoleStatement)
  | expression (e : ExpressionStatement)
  | block (b : Block)

inductive ReturnStatement where
  | mk (expression : Expression) (span : Span)

inductive VariableName where
  | mk (mutable : Bool) (identifier : Identifier) (span : Span)

inductive DefinitionStatement where
  | mk (variable_names : List VariableName) (type_ : Option AstType)
       (value : Expression) (span : Span)

inductive AssigneeAccess where
  | arrayRange (left : Option Expression) (right : Option Expression)
  | arrayIndex (index : Expression)
  | tuple (index : Nat) (span : Span)
  | member (identifier : Identifier)

inductive Assignee where
  | mk (identifier : Identifier) (accesses : List AssigneeAccess) (span : Span)

inductive AssignStatement where
  | mk (operation : String) (assignee : Assignee) (value : Expression) (span : Span)

inductive ConditionalStatement where
  | mk (condition : Expression) (block : Block) (next : Option Statement) (span : Span)

inductive IterationStatement where
  | mk (variable_ : Identifier) (start : Expression) (stop : Expression)
       (block : Block) (span : Span)

inductive FormatString where
  | mk (parts : List String) (parameters : List Expression) (span : Span)

inductive ConsoleFunction where
  | assert (e : Expression)
  | debug (f : FormatString)
  | error (f : FormatString)
  | log (f : FormatString)

inductive ConsoleStatement where
  | mk (function : ConsoleFunction) (span : Span)

inductive ExpressionStatement where
  | mk (expression : Expression) (span : Span)

inductive Block where
  | mk (statements : List Statement) (span : Span)

end

/-- A typed function input variable. -/
inductive FunctionInputVariable where
  | mk (identifier : Identifier) (mutable : Bool) (type_ : AstType) (span : Span)

/-- A function input: a variable or a `self`-like receiver marker. -/
inductive FunctionInput where
  | variable_ (v : FunctionInputVariable)
  | inputKeyword (span : Span)
  | selfKeyword (span : Span)
  | mutSelfKeyword (span : Span)

/-- A single imported package. -/
inductive Package where
  | mk (name : Identifier) (access : String) (span : Span)

/-- A group of imported packages. -/
inductive Packages where
  | mk (name : Identifier) (accesses : List String) (span : Span)

/-- One package or several. -/
inductive PackageOrPackages where
  | package (p : Package)
  | packages (ps : Packages)

/-- An import statement. -/
inductive ImportStatement where
  | mk (package_or_packages : PackageOrPackages) (span : Span)

/-- A function annotation such as `@test`. -/
inductive AnnotationNode where
  | mk (span : Span) (name : Identifier) (arguments : List String)

/-- A function declaration. -/
inductive Function where
  | mk (identifier : Identifier) (annotations : List AnnotationNode)
       (input : List FunctionInput) (output : Option AstType)
       (block : Block) (span : Span)

/-- A circuit member: a typed variable or a method. -/
inductive CircuitMember where
  | circuitVariable (identifier : Identifier) (type_ : AstType)
  | circuitFunction (function : Function)

/-- A circuit declaration. -/
inductive Circuit where
  | mk (circuit_name : Identifier) (members : List CircuitMember)

/-- A program: expected inputs, imports, and ordered circuit and function
maps (insertion-ordered association lists). -/
inductive Program where
  | mk (expected_input : List FunctionInput) (imports : List ImportStatement)
       (circuits : List (Identifier × Circuit))
       (functions : List (Identifier × Function))

/-! ## The reconstructing director
(`src/ast/src/reducer/reconstructing_director.rs`)

The director threads one piece of state, the `in_circuit` flag, exactly as
the Rust `&mut self` does: each method returns its result together with the
state left behind (also on error, where the Rust `?` returns early).  For
the flag claim the state is instrumented: whenever a hook that receives the
flag is invoked, the pair (flag passed, ground truth) is logged, where the
ground truth — written from the claim's words — is true exactly for nodes
lying within the body of a circuit member: it is forced to `true` for the
children of `reduce_circuit_member` and propagated unchanged everywhere
else (the `gt` parameter).  The `gt` parameter and the log influence no
result. -/

/-- The canonicalization-pass error type (opaque payload). -/
structure CanonicalizeError where
  msg : String
  deriving Repr, DecidableEq

/-- The director state: the `in_circuit` flag (`ReconstructingDirector`,
lines 23–26), plus the instrumentation log of (flag passed, ground truth)
pairs. -/
structure DirState where
  in_circuit : Bool
  hook_flags : List (Bool × Bool)
  deriving Repr, DecidableEq

/-- The fresh director state (`ReconstructingDirector::new`, lines 29–34:
`in_circuit: false`). -/
def initialState : DirState := ⟨false, []⟩

/-- The pluggable reducer (the `ReconstructingReducer` capability set):
one fallible hook per node kind, with the signatures the director uses.
Hooks whose source signature takes `in_circuit` receive a `Bool`. -/
structure Reducer where
  reduce_type : AstType → AstType → Bool → Span → Except CanonicalizeError AstType
  reduce_expression : Expression → Expression → Bool → Except CanonicalizeError Expression
  reduce_identifier : Identifier → Except CanonicalizeError Identifier
  reduce_group_tuple : GroupTuple → Except CanonicalizeError GroupTuple
  reduce_group_value : GroupValue → GroupValue → Except CanonicalizeError GroupValue
  reduce_value : ValueExpression → ValueExpression → Except CanonicalizeError ValueExpression
  reduce_binary : BinaryExpression → Expression → Expression → BinaryOperation → Bool →
    Except CanonicalizeError BinaryExpression
  reduce_unary : UnaryExpression → Expression → UnaryOperation → Bool →
    Except CanonicalizeError UnaryExpression
  reduce_ternary : TernaryExpression → Expression → Expression → Expression → Bool →
    Except CanonicalizeError TernaryExpression
  reduce_cast : CastExpression → Expression → AstType → Bool →
    Except CanonicalizeError CastExpression
  reduce_array_inline : ArrayInlineExpression → List SpreadOrExpression → Bool →
    Except CanonicalizeError ArrayInlineExpression
  reduce_array_init : ArrayInitExpression → Expression → Bool →
    Except CanonicalizeError ArrayInitExpression
  reduce_array_access : ArrayAccessExpression → Expression → Expression → Bool →
    Except CanonicalizeError ArrayAccessExpression
  reduce_array_range_access : ArrayRangeAccessExpression → Expression →
    Option Expression → Option Expression → Bool →
    Except CanonicalizeError ArrayRangeAccessExpression
  reduce_tuple_init : TupleInitExpression → List Expression → Bool →
    Except CanonicalizeError TupleInitExpression
  reduce_tuple_access : TupleAccessExpression → Expression → Bool →
    Except CanonicalizeError TupleAccessExpression
  reduce_circuit_implied_variable_definition : CircuitImpliedVariableDefinition →
    Identifier → Option Expression → Bool →
    Except CanonicalizeError CircuitImpliedVariableDefinition
  reduce_circuit_init : CircuitInitExpression → Identifier →
    List CircuitImpliedVariableDefinition → Bool →
    Except CanonicalizeError CircuitInitExpression
  reduce_circuit_member_access : CircuitMemberAccessExpression → Expression →
    Identifier → Bool → Except CanonicalizeError CircuitMemberAccessExpression
  reduce_circuit_static_fn_access : CircuitStaticFunctionAccessExpression →
    Expression → Identifier → Bool →
    Except CanonicalizeError CircuitStaticFunctionAccessExpression
  reduce_call : CallExpression → Expression → List Expression → Bool →
    Except CanonicalizeError CallExpression
  reduce_statement : Statement → Statement → Bool → Except CanonicalizeError Statement
  reduce_return : ReturnStatement → Expression → Bool →
    Except CanonicalizeError ReturnStatement
  reduce_variable_name : VariableName → Identifier →
    Except CanonicalizeError VariableName
  reduce_definition : DefinitionStatement → List VariableName → Option AstType →
    Expression → Bool → Except CanonicalizeError DefinitionStatement
  reduce_assignee_access : AssigneeAccess → AssigneeAccess → Bool →
    Except CanonicalizeError AssigneeAccess
  reduce_assignee : Assignee → Identifier → List AssigneeAccess → Bool →
    Except CanonicalizeError Assignee
  reduce_assign : AssignStatement → Assignee → Expression → Bool →
    Except CanonicalizeError AssignStatement
  reduce_conditional : ConditionalStatement → Expression → Block →
    Option Statement → Bool → Except CanonicalizeError ConditionalStatement
  reduce_iteration : IterationStatement → Identifier → Expression → Expression →
    Block → Bool → Except CanonicalizeError IterationStatement
  reduce_console : ConsoleStatement → ConsoleFunction → Bool →
    Except CanonicalizeError ConsoleStatement
  reduce_expression_statement : ExpressionStatement → Expression → Bool →
    Except CanonicalizeError ExpressionStatement
  reduce_block : Block → List Statement → Bool → Except CanonicalizeError Block
  reduce_program : Program → List FunctionInput → List ImportStatement →
    List (Identifier × Circuit) → List (Identifier × Function) →
    Except CanonicalizeError Program
  reduce_function_input_variable : FunctionInputVariable → Identifier → AstType →
    Bool → Except CanonicalizeError FunctionInputVariable
  reduce_function_input : FunctionInput → FunctionInput → Bool →
    Except CanonicalizeError FunctionInput
  reduce_package_or_packages : PackageOrPackages → PackageOrPackages →
    Except CanonicalizeError PackageOrPackages
  reduce_import : ImportStatement → PackageOrPackages →
    Except CanonicalizeError ImportStatement
  reduce_circuit_member : CircuitMember → CircuitMember →
    Except CanonicalizeError CircuitMember
  reduce_circuit : Circuit → Identifier → List CircuitMember →
    Except CanonicalizeError Circuit
  reduce_annotation_node : AnnotationNode → Identifier →
    Except CanonicalizeError AnnotationNode
  reduce_function : Function → Identifier → List AnnotationNode →
    List FunctionInput → Option AstType → Block → Bool →
    Except CanonicalizeError Function

/-- Sequencing with error propagation — the Rust `?`: on error, the state
reached so far is kept and the continuation is skipped. -/
def andThen {α β : Type} (x : Except CanonicalizeError α × DirState)
    (f : α → DirState → Except CanonicalizeError β × DirState) :
    Except CanonicalizeError β × DirState :=
  match x with
  | (.ok v, s) => f v s
  | (.error e, s) => (.error e, s)

/-- Invoke a flag-receiving hook: the hook gets the current `in_circuit`
value, and the pair (flag passed, ground truth `gt`) is logged. -/
def callHook {α : Type} (gt : Bool) (hook : Bool → Except CanonicalizeError α)
    (s : DirState) : Except CanonicalizeError α × DirState :=
  (hook s.in_circuit, ⟨s.in_circuit, s.hook_flags ++ [(s.in_circuit, gt)]⟩)

/-- Director method `reduce_identifier` (line 90). -/
def reduce_identifier (r : Reducer) (identifier : Identifier) (s : DirState) :
    Except CanonicalizeError Identifier × DirState :=
  (r.reduce_identifier identifier, s)

/-- Director method `reduce_group_tuple` (line 94). -/
def reduce_group_tuple (r : Reducer) (group_tuple : GroupTuple) (s : DirState) :
    Except CanonicalizeError GroupTuple × DirState :=
  (r.reduce_group_tuple group_tuple, s)

/-- Director method `reduce_group_value` (line 98). -/
def reduce_group_value (r : Reducer) (group_value : GroupValue) (s : DirState) :
    Except CanonicalizeError GroupValue × DirState :=
  andThen
    (match group_value with
     | .tuple group_tuple =>
       andThen (reduce_group_tuple r group_tuple s) fun t s =>
         (.ok (GroupValue.tuple t), s)
     | other => (.ok other, s))
    fun new s => (r.reduce_group_value group_value new, s)

/-- Director method `reduce_value` (line 107). -/
def reduce_value (r : Reducer) (value : ValueExpression) (s : DirState) :
    Except CanonicalizeError ValueExpression × DirState :=
  andThen
    (match value with
     | .group group_value =>
       andThen (reduce_group_value r group_value s) fun g s =>
         (.ok (ValueExpression.group g), s)
     | other => (.ok other, s))
    fun new s => (r.reduce_value value new, s)

mutual

/-- Director method `reduce_type` (line 36). -/
def reduce_type (r : Reducer) (gt : Bool) (type_ : AstType) (span : Span)
    (s : DirState) : Except CanonicalizeError AstType × DirState :=
  andThen
    (match type_ with
     | .array t dims =>
       andThen (reduce_type r gt t span s) fun t2 s =>
         (.ok (AstType.array t2 dims), s)
     | .tuple types =>
       andThen (reduce_type_list r gt types span s) fun ts s =>
         (.ok (AstType.tuple ts), s)
     | .circuit identifier =>
       andThen (reduce_identifier r identifier s) fun i s =>
         (.ok (AstType.circuit i), s)
     | other => (.ok other, s))
    fun new s =>
    callHook gt (fun flag => r.reduce_type type_ new flag span) s

/-- Iteration of `reduce_type` over the element types of a tuple type. -/
def reduce_type_list (r : Reducer) (gt : Bool) (types : List AstType)
    (span : Span) (s : DirState) :
    Except CanonicalizeError (List AstType) × DirState :=
  match types with
  | [] => (.ok [], s)
  | t :: rest =>
    andThen (reduce_type r gt t span s) fun t2 s =>
    andThen (reduce_type_list r gt rest span s) fun ts s =>
    (.ok (t2 :: ts), s)

end

mutual

/-- Director method `reduce_expression` (line 55): reduce the children per
variant, rebuild, then call the `reduce_expression` hook. -/
def reduce_expression (r : Reducer) (gt : Bool) (expression : Expression)
    (s : DirState) : Except CanonicalizeError Expression × DirState :=
  andThen
    (match expression with
     | .identifier identifier =>
       andThen (reduce_identifier r identifier s) fun i s =>
         (.ok (Expression.identifier i), s)
     | .value value =>
       andThen (reduce_value r value s) fun v s =>
         (.ok (Expression.value v), s)
     | .binary binary =>
       andThen (reduce_binary r gt binary s) fun b s =>
         (.ok (Expression.binary b), s)
     | .unary unary =>
       andThen (reduce_unary r gt unary s) fun u s =>
         (.ok (Expression.unary u), s)
     | .ternary ternary =>
       andThen (reduce_ternary r gt ternary s) fun t s =>
         (.ok (Expression.ternary t), s)
     | .cast cast =>
       andThen (reduce_cast r gt cast s) fun c s =>
         (.ok (Expression.cast c), s)
     | .arrayInline array_inline =>
       andThen (reduce_array_inline r gt array_inline s) fun a s =>
         (.ok (Expression.arrayInline a), s)
     | .arrayInit array_init =>
       andThen (reduce_array_init r gt array_init s) fun a s =>
         (.ok (Expression.arrayInit a), s)
     | .arrayAccess array_access =>
       andThen (reduce_array_access r gt array_access s) fun a s =>
         (.ok (Expression.arrayAccess a), s)
     | .arrayRangeAccess array_range_access =>
       andThen (reduce_array_range_access r gt array_range_access s) fun a s =>
         (.ok (Expression.arrayRangeAccess a), s)
     | .tupleInit tuple_init =>
       andThen (reduce_tuple_init r gt tuple_init s) fun t s =>
         (.ok (Expression.tupleInit t), s)
     | .tupleAccess tuple_access =>
       andThen (reduce_tuple_access r gt tuple_access s) fun t s =>
         (.ok (Expression.tupleAccess t), s)
     | .circuitInit circuit_init =>
       andThen (reduce_circuit_init r gt circuit_init s) fun c s =>
         (.ok (Expression.circuitInit c), s)
     | .circuitMemberAccess circuit_member_access =>
       andThen (reduce_circuit_member_access r gt circuit_member_access s) fun c s =>
         (.ok (Expression.circuitMemberAccess c), s)
     | .circuitStaticFunctionAccess circuit_static_fn_access =>
       andThen (reduce_circuit_static_fn_access r gt circuit_static_fn_access s) fun c s =>
         (.ok (Expression.circuitStaticFunctionAccess c), s)
     | .call call =>
       andThen (reduce_call r gt call s) fun c s =>
         (.ok (Expression.call c), s))
    fun new s =>
    callHook gt (fun flag => r.reduce_expression expression new flag) s

/-- Director method `reduce_binary` (line 118). -/
def reduce_binary (r : Reducer) (gt : Bool) (binary : BinaryExpression)
    (s : DirState) : Except CanonicalizeError BinaryExpression × DirState :=
  match binary with
  | .mk bleft bright op span =>
    andThen (reduce_expression r gt bleft s) fun left s =>
    andThen (reduce_expression r gt bright s) fun right s =>
    callHook gt (fun flag =>
      r.reduce_binary (BinaryExpression.mk bleft bright op span) left right op flag) s

/-- Director method `reduce_unary` (line 126). -/
def reduce_unary (r : Reducer) (gt : Bool) (unary : UnaryExpression)
    (s : DirState) : Except CanonicalizeError UnaryExpression × DirState :=
  match unary with
  | .mk uinner op span =>
    andThen (reduce_expression r gt uinner s) fun inner s =>
    callHook gt (fun flag =>
      r.reduce_unary (UnaryExpression.mk uinner op span) inner op flag) s

/-- Director method `reduce_ternary` (line 133). -/
def reduce_ternary (r : Reducer) (gt : Bool) (ternary : TernaryExpression)
    (s : DirState) : Except CanonicalizeError TernaryExpression × DirState :=
  match ternary with
  | .mk tcond ttrue tfalse span =>
    andThen (reduce_expression r gt tcond s) fun condition s =>
    andThen (reduce_expression r gt ttrue s) fun if_true s =>
    andThen (reduce_expression r gt tfalse s) fun if_false s =>
    callHook gt (fun flag =>
      r.reduce_ternary (TernaryExpression.mk tcond ttrue tfalse span)
        condition if_true if_false flag) s

/-- Director method `reduce_cast` (line 142). -/
def reduce_cast (r : Reducer) (gt : Bool) (cast : CastExpression)
    (s : DirState) : Except CanonicalizeError CastExpression × DirState :=
  match cast with
  | .mk cinner ctype span =>
    andThen (reduce_expression r gt cinner s) fun inner s =>
    andThen (reduce_type r gt ctype span s) fun target_type s =>
    callHook gt (fun flag =>
      r.reduce_cast (CastExpression.mk cinner ctype span) inner target_type flag) s

/-- Director method `reduce_array_inline` (line 149): reduce each element,
spread or expression alike. -/
def reduce_array_inline (r : Reducer) (gt : Bool)
    (array_inline : ArrayInlineExpression) (s : DirState) :
    Except CanonicalizeError ArrayInlineExpression × DirState :=
  match array_inline with
  | .mk aelements span =>
    andThen (reduce_spread_or_expression_list r gt aelements s) fun elements s =>
    callHook gt (fun flag =>
      r.reduce_array_inline (ArrayInlineExpression.mk aelements span) elements flag) s

/-- Iteration of the `reduce_array_inline` element loop. -/
def reduce_spread_or_expression_list (r : Reducer) (gt : Bool)
    (elements : List SpreadOrExpression) (s : DirState) :
    Except CanonicalizeError (List SpreadOrExpression) × DirState :=
  match elements with
  | [] => (.ok [], s)
  | .expression e :: rest =>
    andThen (reduce_expression r gt e s) fun e2 s =>
    andThen (reduce_spread_or_expression_list r gt rest s) fun es s =>
    (.ok (SpreadOrExpression.expression e2 :: es), s)
  | .spread e :: rest =>
    andThen (reduce_expression r gt e s) fun e2 s =>
    andThen (reduce_spread_or_expression_list r gt rest s) fun es s =>
    (.ok (SpreadOrExpression.spread e2 :: es), s)

/-- Director method `reduce_array_init` (line 171). -/
def reduce_array_init (r : Reducer) (gt : Bool)
    (array_init : ArrayInitExpression) (s : DirState) :
    Except CanonicalizeError ArrayInitExpression × DirState :=
  match array_init with
  | .mk aelement dims span =>
    andThen (reduce_expression r gt aelement s) fun element s =>
    callHook gt (fun flag =>
      r.reduce_array_init (ArrayInitExpression.mk aelement dims span) element flag) s

/-- Director method `reduce_array_access` (line 180). -/
def reduce_array_access (r : Reducer) (gt : Bool)
    (array_access : ArrayAccessExpression) (s : DirState) :
    Except CanonicalizeError ArrayAccessExpression × DirState :=
  match array_access with
  | .mk aarray aindex span =>
    andThen (reduce_expression r gt aarray s) fun array s =>
    andThen (reduce_expression r gt aindex s) fun index s =>
    callHook gt (fun flag =>
      r.reduce_array_access (ArrayAccessExpression.mk aarray aindex span)
        array index flag) s

/-- Director method `reduce_array_range_access` (line 191). -/
def reduce_array_range_access (r : Reducer) (gt : Bool)
    (array_range_access : ArrayRangeAccessExpression) (s : DirState) :
    Except CanonicalizeError ArrayRangeAccessExpression × DirState :=
  match array_range_access with
  | .mk aarray aleft aright span =>
    andThen (reduce_expression r gt aarray s) fun array s =>
    andThen (reduce_expression_option r gt aleft s) fun left s =>
    andThen (reduce_expression_option r gt aright s) fun right s =>
    callHook gt (fun flag =>
      r.reduce_array_range_access
        (ArrayRangeAccessExpression.mk aarray aleft aright span)
        array left right flag) s

/-- The `.map(|e| self.reduce_expression(e)).transpose()?` pattern on an
optional expression. -/
def reduce_expression_option (r : Reducer) (gt : Bool) (o : Option Expression)
    (s : DirState) : Except CanonicalizeError (Option Expression) × DirState :=
  match o with
  | none => (.ok none, s)
  | some e =>
    andThen (reduce_expression r gt e s) fun e2 s => (.ok (some e2), s)

/-- Director method `reduce_tuple_init` (line 211). -/
def reduce_tuple_init (r : Reducer) (gt : Bool)
    (tuple_init : TupleInitExpression) (s : DirState) :
    Except CanonicalizeError TupleInitExpression × DirState :=
  match tuple_init with
  | .mk telements span =>
    andThen (reduce_expression_list r gt telements s) fun elements s =>
    callHook gt (fun flag =>
      r.reduce_tuple_init (TupleInitExpression.mk telements span) elements flag) s

/-- Iteration of `reduce_expression` over a list of expressions. -/
def reduce_expression_list (r : Reducer) (gt : Bool) (es : List Expression)
    (s : DirState) : Except CanonicalizeError (List Expression) × DirState :=
  match es with
  | [] => (.ok [], s)
  | e :: rest =>
    andThen (reduce_expression r gt e s) fun e2 s =>
    andThen (reduce_expression_list r gt rest s) fun es2 s =>
    (.ok (e2 :: es2), s)

/-- Director method `reduce_tuple_access` (line 223). -/
def reduce_tuple_access (r : Reducer) (gt : Bool)
    (tuple_access : TupleAccessExpression) (s : DirState) :
    Except CanonicalizeError TupleAccessExpression × DirState :=
  match tuple_access with
  | .mk ttuple index span =>
    andThen (reduce_expression r gt ttuple s) fun tuple s =>
    callHook gt (fun flag =>
      r.reduce_tuple_access (TupleAccessExpression.mk ttuple index span) tuple flag) s

/-- Director method `reduce_circuit_implied_variable_definition` (line 232). -/
def reduce_circuit_implied_variable_definition (r : Reducer) (gt : Bool)
    (var : CircuitImpliedVariableDefinition) (s : DirState) :
    Except CanonicalizeError CircuitImpliedVariableDefinition × DirState :=
  match var with
  | .mk videntifier vexpression =>
    andThen (reduce_identifier r videntifier s) fun identifier s =>
    andThen (reduce_expression_option r gt vexpression s) fun expression s =>
    callHook gt (fun flag =>
      r.reduce_circuit_implied_variable_definition
        (CircuitImpliedVariableDefinition.mk videntifier vexpression)
        identifier expression flag) s

/-- Director method `reduce_circuit_init` (line 247). -/
def reduce_circuit_init (r : Reducer) (gt : Bool)
    (circuit_init : CircuitInitExpression) (s : DirState) :
    Except CanonicalizeError CircuitInitExpression × DirState :=
  match circuit_init with
  | .mk cname cmembers span =>
    andThen (reduce_identifier r cname s) fun name s =>
    andThen (reduce_civd_list r gt cmembers s) fun members s =>
    callHook gt (fun flag =>
      r.reduce_circuit_init (CircuitInitExpression.mk cname cmembers span)
        name members flag) s

/-- Iteration of the `reduce_circuit_init` member loop. -/
def reduce_civd_list (r : Reducer) (gt : Bool)
    (members : List CircuitImpliedVariableDefinition) (s : DirState) :
    Except CanonicalizeError (List CircuitImpliedVariableDefinition) × DirState :=
  match members with
  | [] => (.ok [], s)
  | m :: rest =>
    andThen (reduce_circuit_implied_variable_definition r gt m s) fun m2 s =>
    andThen (reduce_civd_list r gt rest s) fun ms s =>
    (.ok (m2 :: ms), s)

/-- Director method `reduce_circuit_member_access` (line 262). -/
def reduce_circuit_member_access (r : Reducer) (gt : Bool)
    (circuit_member_access : CircuitMemberAccessExpression) (s : DirState) :
    Except CanonicalizeError CircuitMemberAccessExpression × DirState :=
  match circuit_member_access with
  | .mk ccircuit cname span =>
    andThen (reduce_expression r gt ccircuit s) fun circuit s =>
    andThen (reduce_identifier r cname s) fun name s =>
    callHook gt (fun flag =>
      r.reduce_circuit_member_access
        (CircuitMemberAccessExpression.mk ccircuit cname span) circuit name flag) s

/-- Director method `reduce_circuit_static_fn_access` (line 273). -/
def reduce_circuit_static_fn_access (r : Reducer) (gt : Bool)
    (circuit_static_fn_access : CircuitStaticFunctionAccessExpression)
    (s : DirState) :
    Except CanonicalizeError CircuitStaticFunctionAccessExpression × DirState :=
  match circuit_static_fn_access with
  | .mk ccircuit cname span =>
    andThen (reduce_expression r gt ccircuit s) fun circuit s =>
    andThen (reduce_identifier r cname s) fun name s =>
    callHook gt (fun flag =>
      r.reduce_circuit_static_fn_access
        (CircuitStaticFunctionAccessExpression.mk ccircuit cname span)
        circuit name flag) s

/-- Director method `reduce_call` (line 284). -/
def reduce_call (r : Reducer) (gt : Bool) (call : CallExpression) (s : DirState) :
    Except CanonicalizeError CallExpression × DirState :=
  match call with
  | .mk cfunction carguments span =>
    andThen (reduce_expression r gt cfunction s) fun function s =>
    andThen (reduce_expression_list r gt carguments s) fun arguments s =>
    callHook gt (fun flag =>
      r.reduce_call (CallExpression.mk cfunction carguments span)
        function arguments flag) s

end

/-- Director method `reduce_return` (line 311). -/
def reduce_return (r : Reducer) (gt : Bool) (return_statement : ReturnStatement)
    (s : DirState) : Except CanonicalizeError ReturnStatement × DirState :=
  match return_statement with
  | .mk rexpression span =>
    andThen (reduce_expression r gt rexpression s) fun expression s =>
    callHook gt (fun flag =>
      r.reduce_return (ReturnStatement.mk rexpression span) expression flag) s

/-- Director method `reduce_variable_name` (line 318). -/
def reduce_variable_name (r : Reducer) (variable_name : VariableName)
    (s : DirState) : Except CanonicalizeError VariableName × DirState :=
  match variable_name with
  | .mk vmut videntifier span =>
    andThen (reduce_identifier r videntifier s) fun identifier s =>
    (r.reduce_variable_name (VariableName.mk vmut videntifier span) identifier, s)

/-- Iteration of the `reduce_definition` variable-name loop. -/
def reduce_variable_name_list (r : Reducer) (vs : List VariableName)
    (s : DirState) : Except CanonicalizeError (List VariableName) × DirState :=
  match vs with
  | [] => (.ok [], s)
  | v :: rest =>
    andThen (reduce_variable_name r v s) fun v2 s =>
    andThen (reduce_variable_name_list r rest s) fun vs2 s =>
    (.ok (v2 :: vs2), s)

/-- The `.map(|t| self.reduce_type(t, span)).transpose()?` pattern on an
optional type. -/
def reduce_type_option (r : Reducer) (gt : Bool) (o : Option AstType)
    (span : Span) (s : DirState) :
    Except CanonicalizeError (Option AstType) × DirState :=
  match o with
  | none => (.ok none, s)
  | some t =>
    andThen (reduce_type r gt t span s) fun t2 s => (.ok (some t2), s)

/-- Director method `reduce_definition` (line 324). -/
def reduce_definition (r : Reducer) (gt : Bool) (definition : DefinitionStatement)
    (s : DirState) : Except CanonicalizeError DefinitionStatement × DirState :=
  match definition with
  | .mk dnames dtype dvalue span =>
    andThen (reduce_variable_name_list r dnames s) fun variable_names s =>
    andThen (reduce_type_option r gt dtype span s) fun type_ s =>
    andThen (reduce_expression r gt dvalue s) fun value s =>
    callHook gt (fun flag =>
      r.reduce_definition (DefinitionStatement.mk dnames dtype dvalue span)
        variable_names type_ value flag) s

/-- Director method `reduce_assignee_access` (line 345). -/
def reduce_assignee_access (r : Reducer) (gt : Bool) (access : AssigneeAccess)
    (s : DirState) : Except CanonicalizeError AssigneeAccess × DirState :=
  andThen
    (match access with
     | .arrayRange aleft aright =>
       andThen (reduce_expression_option r gt aleft s) fun left s =>
       andThen (reduce_expression_option r gt aright s) fun right s =>
       (.ok (AssigneeAccess.arrayRange left right), s)
     | .arrayIndex index =>
       andThen (reduce_expression r gt index s) fun i s =>
         (.ok (AssigneeAccess.arrayIndex i), s)
     | .member identifier =>
       andThen (reduce_identifier r identifier s) fun i s =>
         (.ok (AssigneeAccess.member i), s)
     | other => (.ok other, s))
    fun new s =>
    callHook gt (fun flag => r.reduce_assignee_access access new flag) s

/-- Iteration of the `reduce_assignee` access loop. -/
def reduce_assignee_access_list (r : Reducer) (gt : Bool)
    (accesses : List AssigneeAccess) (s : DirState) :
    Except CanonicalizeError (List AssigneeAccess) × DirState :=
  match accesses with
  | [] => (.ok [], s)
  | a :: rest =>
    andThen (reduce_assignee_access r gt a s) fun a2 s =>
    andThen (reduce_assignee_access_list r gt rest s) fun as2 s =>
    (.ok (a2 :: as2), s)

/-- Director method `reduce_assignee` (line 361). -/
def reduce_assignee (r : Reducer) (gt : Bool) (assignee : Assignee)
    (s : DirState) : Except CanonicalizeError Assignee × DirState :=
  match assignee with
  | .mk aidentifier aaccesses span =>
    andThen (reduce_identifier r aidentifier s) fun identifier s =>
    andThen (reduce_assignee_access_list r gt aaccesses s) fun accesses s =>
    callHook gt (fun flag =>
      r.reduce_assignee (Assignee.mk aidentifier aaccesses span)
        identifier accesses flag) s

/-- Director method `reduce_assign` (line 373). -/
def reduce_assign (r : Reducer) (gt : Bool) (assign : AssignStatement)
    (s : DirState) : Except CanonicalizeError AssignStatement × DirState :=
  match assign with
  | .mk op aassignee avalue span =>
    andThen (reduce_assignee r gt aassignee s) fun assignee s =>
    andThen (reduce_expression r gt avalue s) fun value s =>
    callHook gt (fun flag =>
      r.reduce_assign (AssignStatement.mk op aassignee avalue span)
        assignee value flag) s

/-- Director method `reduce_console` (line 409). -/
def reduce_console (r : Reducer) (gt : Bool)
    (console_function_call : ConsoleStatement) (s : DirState) :
    Except CanonicalizeError ConsoleStatement × DirState :=
  match console_function_call with
  | .mk cfunction span =>
    andThen
      (match cfunction with
       | .assert expression =>
         andThen (reduce_expression r gt expression s) fun e s =>
           (.ok (ConsoleFunction.assert e), s)
       | .debug (.mk parts parameters fspan) =>
         andThen (reduce_expression_list r gt parameters s) fun params s =>
           (.ok (ConsoleFunction.debug (FormatString.mk parts params fspan)), s)
       | .error (.mk parts parameters fspan) =>
         andThen (reduce_expression_list r gt parameters s) fun params s =>
           (.ok (ConsoleFunction.error (FormatString.mk parts params fspan)), s)
       | .log (.mk parts parameters fspan) =>
         andThen (reduce_expression_list r gt parameters s) fun params s =>
           (.ok (ConsoleFunction.log (FormatString.mk parts params fspan)), s))
      fun function s =>
      callHook gt (fun flag =>
        r.reduce_console (ConsoleStatement.mk cfunction span) function flag) s

/-- Director method `reduce_expression_statement` (line 440). -/
def reduce_expression_statement (r : Reducer) (gt : Bool)
    (expression : ExpressionStatement) (s : DirState) :
    Except CanonicalizeError ExpressionStatement × DirState :=
  match expression with
  | .mk einner span =>
    andThen (reduce_expression r gt einner s) fun inner_expression s =>
    callHook gt (fun flag =>
      r.reduce_expression_statement (ExpressionStatement.mk einner span)
        inner_expression flag) s

mutual

/-- Director method `reduce_statement` (line 296). -/
def reduce_statement (r : Reducer) (gt : Bool) (statement : Statement)
    (s : DirState) : Except CanonicalizeError Statement × DirState :=
  andThen
    (match statement with
     | .ret return_statement =>
       andThen (reduce_return r gt return_statement s) fun x s =>
         (.ok (Statement.ret x), s)
     | .definition definition =>
       andThen (reduce_definition r gt definition s) fun x s =>
         (.ok (Statement.definition x), s)
     | .assign assign =>
       andThen (reduce_assign r gt assign s) fun x s =>
         (.ok (Statement.assign x), s)
     | .conditional conditional =>
       andThen (reduce_conditional r gt conditional s) fun x s =>
         (.ok (Statement.conditional x), s)
     | .iteration iteration =>
       andThen (reduce_iteration r gt iteration s) fun x s =>
         (.ok (Statement.iteration x), s)
     | .console console =>
       andThen (reduce_console r gt console s) fun x s =>
         (.ok (Statement.console x), s)
     | .expression expression =>
       andThen (reduce_expression_statement r gt expression s) fun x s =>
         (.ok (Statement.expression x), s)
     | .block block =>
       andThen (reduce_block r gt block s) fun x s =>
         (.ok (Statement.block x), s))
    fun new s =>
    callHook gt (fun flag => r.reduce_statement statement new flag) s

/-- Director method `reduce_conditional` (line 380). -/
def reduce_conditional (r : Reducer) (gt : Bool)
    (conditional : ConditionalStatement) (s : DirState) :
    Except CanonicalizeError ConditionalStatement × DirState :=
  match conditional with
  | .mk ccondition cblock cnext span =>
    andThen (reduce_expression r gt ccondition s) fun condition s =>
    andThen (reduce_block r gt cblock s) fun block s =>
    andThen (reduce_statement_option r gt cnext s) fun next s =>
    callHook gt (fun flag =>
      r.reduce_conditional (ConditionalStatement.mk ccondition cblock cnext span)
        condition block next flag) s

/-- The `.map(|st| self.reduce_statement(st)).transpose()?` pattern on the
optional else-statement. -/
def reduce_statement_option (r : Reducer) (gt : Bool) (o : Option Statement)
    (s : DirState) : Except CanonicalizeError (Option Statement) × DirState :=
  match o with
  | none => (.ok none, s)
  | some st =>
    andThen (reduce_statement r gt st s) fun st2 s => (.ok (some st2), s)

/-- Director method `reduce_iteration` (line 396). -/
def reduce_iteration (r : Reducer) (gt : Bool) (iteration : IterationStatement)
    (s : DirState) : Except CanonicalizeError IterationStatement × DirState :=
  match iteration with
  | .mk ivariable istart istop iblock span =>
    andThen (reduce_identifier r ivariable s) fun variable_ s =>
    andThen (reduce_expression r gt istart s) fun start s =>
    andThen (reduce_expression r gt istop s) fun stop s =>
    andThen (reduce_block r gt iblock s) fun block s =>
    callHook gt (fun flag =>
      r.reduce_iteration (IterationStatement.mk ivariable istart istop iblock span)
        variable_ start stop block flag) s

/-- Director method `reduce_block` (line 449). -/
def reduce_block (r : Reducer) (gt : Bool) (block : Block) (s : DirState) :
    Except CanonicalizeError Block × DirState :=
  match block with
  | .mk bstatements span =>
    andThen (reduce_statement_list r gt bstatements s) fun statements s =>
    callHook gt (fun flag =>
      r.reduce_block (Block.mk bstatements span) statements flag) s

/-- Iteration of the `reduce_block` statement loop. -/
def reduce_statement_list (r : Reducer) (gt : Bool) (sts : List Statement)
    (s : DirState) : Except CanonicalizeError (List Statement) × DirState :=
  match sts with
  | [] => (.ok [], s)
  | st :: rest =>
    andThen (reduce_statement r gt st s) fun st2 s =>
    andThen (reduce_statement_list r gt rest s) fun sts2 s =>
    (.ok (st2 :: sts2), s)

end

/-- Director method `reduce_function_input_variable` (line 484). -/
def reduce_function_input_variable (r : Reducer) (gt : Bool)
    (var : FunctionInputVariable) (s : DirState) :
    Except CanonicalizeError FunctionInputVariable × DirState :=
  match var with
  | .mk videntifier vmut vtype span =>
    andThen (reduce_identifier r videntifier s) fun identifier s =>
    andThen (reduce_type r gt vtype span s) fun type_ s =>
    callHook gt (fun flag =>
      r.reduce_function_input_variable
        (FunctionInputVariable.mk videntifier vmut vtype span)
        identifier type_ flag) s

/-- Director method `reduce_function_input` (line 495). -/
def reduce_function_input (r : Reducer) (gt : Bool) (input : FunctionInput)
    (s : DirState) : Except CanonicalizeError FunctionInput × DirState :=
  andThen
    (match input with
     | .variable_ function_input_variable =>
       andThen (reduce_function_input_variable r gt function_input_variable s)
         fun v s => (.ok (FunctionInput.variable_ v), s)
     | other => (.ok other, s))
    fun new s =>
    callHook gt (fun flag => r.reduce_function_input input new flag) s

/-- Iteration of `reduce_function_input` over an input list. -/
def reduce_function_input_list (r : Reducer) (gt : Bool)
    (inputs : List FunctionInput) (s : DirState) :
    Except CanonicalizeError (List FunctionInput) × DirState :=
  match inputs with
  | [] => (.ok [], s)
  | i :: rest =>
    andThen (reduce_function_input r gt i s) fun i2 s =>
    andThen (reduce_function_input_list r gt rest s) fun is2 s =>
    (.ok (i2 :: is2), s)

/-- Director method `reduce_package_or_packages` (line 506). -/
def reduce_package_or_packages (r : Reducer)
    (package_or_packages : PackageOrPackages) (s : DirState) :
    Except CanonicalizeError PackageOrPackages × DirState :=
  andThen
    (match package_or_packages with
     | .package (.mk pname access span) =>
       andThen (reduce_identifier r pname s) fun name s =>
         (.ok (PackageOrPackages.package (Package.mk name access span)), s)
     | .packages (.mk pname accesses span) =>
       andThen (reduce_identifier r pname s) fun name s =>
         (.ok (PackageOrPackages.packages (Packages.mk name accesses span)), s))
    fun new s => (r.reduce_package_or_packages package_or_packages new, s)

/-- Director method `reduce_import` (line 526). -/
def reduce_import (r : Reducer) (importStmt : ImportStatement) (s : DirState) :
    Except CanonicalizeError ImportStatement × DirState :=
  match importStmt with
  | .mk ipp _span =>
    andThen (reduce_package_or_packages r ipp s) fun package_or_packages s =>
    (r.reduce_import (ImportStatement.mk ipp _span) package_or_packages, s)

/-- Iteration of `reduce_import` over the import list. -/
def reduce_import_list (r : Reducer) (imports : List ImportStatement)
    (s : DirState) : Except CanonicalizeError (List ImportStatement) × DirState :=
  match imports with
  | [] => (.ok [], s)
  | i :: rest =>
    andThen (reduce_import r i s) fun i2 s =>
    andThen (reduce_import_list r rest s) fun is2 s =>
    (.ok (i2 :: is2), s)

/-- Director method `reduce_annotation` (line 562). -/
def reduce_annotation_node (r : Reducer) (a : AnnotationNode) (s : DirState) :
    Except CanonicalizeError AnnotationNode × DirState :=
  match a with
  | .mk span aname arguments =>
    andThen (reduce_identifier r aname s) fun name s =>
    (r.reduce_annotation_node (AnnotationNode.mk span aname arguments) name, s)

/-- Iteration of the `reduce_function` annotation loop. -/
def reduce_annotation_node_list (r : Reducer) (l : List AnnotationNode)
    (s : DirState) : Except CanonicalizeError (List AnnotationNode) × DirState :=
  match l with
  | [] => (.ok [], s)
  | a :: rest =>
    andThen (reduce_annotation_node r a s) fun a2 s =>
    andThen (reduce_annotation_node_list r rest s) fun as2 s =>
    (.ok (a2 :: as2), s)

/-- Director method `reduce_function` (line 568). -/
def reduce_function (r : Reducer) (gt : Bool) (function : Function)
    (s : DirState) : Except CanonicalizeError Function × DirState :=
  match function with
  | .mk fidentifier fannotations finput foutput fblock span =>
    andThen (reduce_identifier r fidentifier s) fun identifier s =>
    andThen (reduce_annotation_node_list r fannotations s) fun annotations s =>
    andThen (reduce_function_input_list r gt finput s) fun inputs s =>
    andThen (reduce_type_option r gt foutput span s) fun output s =>
    andThen (reduce_block r gt fblock s) fun block s =>
    callHook gt (fun flag =>
      r.reduce_function (Function.mk fidentifier fannotations finput foutput fblock span)
        identifier annotations inputs output block flag) s

/-- Director method `reduce_circuit_member` (line 532): toggle `in_circuit`,
reduce the member's contents (their ground truth is `true`: they lie within
the body of a circuit member), toggle back, then call the hook.  An error
from the contents propagates through the `?` before the second toggle. -/
def reduce_circuit_member (r : Reducer) (circuit_member : CircuitMember)
    (s : DirState) : Except CanonicalizeError CircuitMember × DirState :=
  let s := { s with in_circuit := !s.in_circuit }
  andThen
    (match circuit_member with
     | .circuitVariable identifier type_ =>
       andThen (reduce_identifier r identifier s) fun i s =>
       andThen (reduce_type r true type_ identifier.span s) fun t s =>
       (.ok (CircuitMember.circuitVariable i t), s)
     | .circuitFunction function =>
       andThen (reduce_function r true function s) fun f s =>
       (.ok (CircuitMember.circuitFunction f), s))
    fun new s =>
    let s := { s with in_circuit := !s.in_circuit }
    (r.reduce_circuit_member circuit_member new, s)

/-- Iteration of the `reduce_circuit` member loop. -/
def reduce_circuit_member_list (r : Reducer) (members : List CircuitMember)
    (s : DirState) : Except CanonicalizeError (List CircuitMember) × DirState :=
  match members with
  | [] => (.ok [], s)
  | m :: rest =>
    andThen (reduce_circuit_member r m s) fun m2 s =>
    andThen (reduce_circuit_member_list r rest s) fun ms s =>
    (.ok (m2 :: ms), s)

/-- Director method `reduce_circuit` (line 551). -/
def reduce_circuit (r : Reducer) (circuit : Circuit) (s : DirState) :
    Except CanonicalizeError Circuit × DirState :=
  match circuit with
  | .mk cname cmembers =>
    andThen (reduce_identifier r cname s) fun circuit_name s =>
    andThen (reduce_circuit_member_list r cmembers s) fun members s =>
    (r.reduce_circuit (Circuit.mk cname cmembers) circuit_name members, s)

/-- Iteration of the `reduce_program` circuit-map loop: each entry's key is
reduced by `reduce_identifier` and its value by `reduce_circuit`. -/
def reduce_circuit_pair_list (r : Reducer) (l : List (Identifier × Circuit))
    (s : DirState) :
    Except CanonicalizeError (List (Identifier × Circuit)) × DirState :=
  match l with
  | [] => (.ok [], s)
  | (identifier, circuit) :: rest =>
    andThen (reduce_identifier r identifier s) fun i s =>
    andThen (reduce_circuit r circuit s) fun c s =>
    andThen (reduce_circuit_pair_list r rest s) fun ps s =>
    (.ok ((i, c) :: ps), s)

/-- Iteration of the `reduce_program` function-map loop; the functions are
top level, so their ground truth is `false`. -/
def reduce_function_pair_list (r : Reducer) (l : List (Identifier × Function))
    (s : DirState) :
    Except CanonicalizeError (List (Identifier × Function)) × DirState :=
  match l with
  | [] => (.ok [], s)
  | (identifier, function) :: rest =>
    andThen (reduce_identifier r identifier s) fun i s =>
    andThen (reduce_function r false function s) fun f s =>
    andThen (reduce_function_pair_list r rest s) fun ps s =>
    (.ok ((i, f) :: ps), s)

/-- Director method `reduce_program` (line 459): inputs, imports, circuits,
then functions, in declaration order; the program-level nodes lie in no
circuit member body, so their ground truth is `false`. -/
def reduce_program (r : Reducer) (program : Program) (s : DirState) :
    Except CanonicalizeError Program × DirState :=
  match program with
  | .mk pinputs pimports pcircuits pfunctions =>
    andThen (reduce_function_input_list r false pinputs s) fun inputs s =>
    andThen (reduce_import_list r pimports s) fun imports s =>
    andThen (reduce_circuit_pair_list r pcircuits s) fun circuits s =>
    andThen (reduce_function_pair_list r pfunctions s) fun functions s =>
    (r.reduce_program (Program.mk pinputs pimports pcircuits pfunctions)
      inputs imports circuits functions, s)

/-- All logged pairs agree: every flag-receiving hook received a flag equal
to the ground truth of its node. -/
def logOk (s : DirState) : Prop := ∀ p ∈ s.hook_flags, p.1 = p.2

/-- The per-call invariant of a director method: the instrumentation log
stays valid, and a successful return leaves `in_circuit` at its entry
value. -/
def DirOk {α : Type} (s : DirState)
    (out : Except CanonicalizeError α × DirState) : Prop :=
  (logOk s → logOk out.2) ∧
  (∀ w, out.1 = .ok w → out.2.in_circuit = s.in_circuit)


/-- A trivial reducer whose hooks succeed, returning the original node
unchanged (the flag claims do not depend on what hooks return). -/
def idReducer : Reducer where
  reduce_type := fun type_ _ _ _ => .ok type_
  reduce_expression := fun expression _ _ => .ok expression
  reduce_identifier := fun identifier => .ok identifier
  reduce_group_tuple := fun group_tuple => .ok group_tuple
  reduce_group_value := fun group_value _ => .ok group_value
  reduce_value := fun value _ => .ok value
  reduce_binary := fun binary _ _ _ _ => .ok binary
  reduce_unary := fun unary _ _ _ => .ok unary
  reduce_ternary := fun ternary _ _ _ _ => .ok ternary
  reduce_cast := fun cast _ _ _ => .ok cast
  reduce_array_inline := fun array_inline _ _ => .ok array_inline
  reduce_array_init := fun array_init _ _ => .ok array_init
  reduce_array_access := fun array_access _ _ _ => .ok array_access
  reduce_array_range_access := fun a _ _ _ _ => .ok a
  reduce_tuple_init := fun tuple_init _ _ => .ok tuple_init
  reduce_tuple_access := fun tuple_access _ _ => .ok tuple_access
  reduce_circuit_implied_variable_definition := fun v _ _ _ => .ok v
  reduce_circuit_init := fun circuit_init _ _ _ => .ok circuit_init
  reduce_circuit_member_access := fun c _ _ _ => .ok c
  reduce_circuit_static_fn_access := fun c _ _ _ => .ok c
  reduce_call := fun call _ _ _ => .ok call
  reduce_statement := fun statement _ _ => .ok statement
  reduce_return := fun return_statement _ _ => .ok return_statement
  reduce_variable_name := fun variable_name _ => .ok variable_name
  reduce_definition := fun definition _ _ _ _ => .ok definition
  reduce_assignee_access := fun access _ _ => .ok access
  reduce_assignee := fun assignee _ _ _ => .ok assignee
  reduce_assign := fun assign _ _ _ => .ok assign
  reduce_conditional := fun conditional _ _ _ _ => .ok conditional
  reduce_iteration := fun iteration _ _ _ _ _ => .ok iteration
  reduce_console := fun console _ _ => .ok console
  reduce_expression_statement := fun e _ _ => .ok e
  reduce_block := fun block _ _ => .ok block
  reduce_program := fun program _ _ _ _ => .ok program
  reduce_function_input_variable := fun v _ _ _ => .ok v
  reduce_function_input := fun input _ _ => .ok input
  reduce_package_or_packages := fun p _ => .ok p
  reduce_import := fun i _ => .ok i
  reduce_circuit_member := fun circuit_member _ => .ok circuit_member
  reduce_circuit := fun circuit _ _ => .ok circuit
  reduce_annotation_node := fun a _ => .ok a
  reduce_function := fun function _ _ _ _ _ _ => .ok function

/-- The reducer of `idReducer` with a failing `reduce_identifier` hook. -/
def failReducer : Reducer :=
  { idReducer with reduce_identifier := fun _ => .error ⟨"fail"⟩ }

/-- A circuit with a single variable member, used as a concrete traversal
input. -/
def sampleCircuit : Circuit :=
  .mk ⟨"C", ⟨1, 1⟩⟩ [.circuitVariable ⟨"x", ⟨1, 2⟩⟩ .boolean]

/-- A program declaring just `sampleCircuit`. -/
def sampleProgram : Program :=
  .mk [] [] [(⟨"C", ⟨1, 1⟩⟩, sampleCircuit)] []


/-! # Theorems -/

theorem SignedIntKind.two_le_width (k : SignedIntKind) : 2 ≤ k.width := by
  cases k <;> decide

/-! ## Arithmetic facts about `wrap` -/

theorem two_pow_split {n : Nat} (h : 1 ≤ n) :
    (2 : Int) ^ n = 2 ^ (n - 1) + 2 ^ (n - 1) := by
  have : (2 : Int) ^ n = 2 ^ (n - 1) * 2 := by
    rw [← pow_succ]
    congr 1
    omega
  omega

theorem wrap_eq_self {n : Nat} (h : 1 ≤ n) {x : Int}
    (h1 : -(2 ^ (n - 1)) ≤ x) (h2 : x < 2 ^ (n - 1)) : wrap n x = x := by
  unfold wrap
  have hsplit := two_pow_split h
  have hmod : (x + 2 ^ (n - 1)) % 2 ^ n = x + 2 ^ (n - 1) :=
    Int.emod_eq_of_lt (by omega) (by omega)
  omega

theorem wrap_zero {n : Nat} (h : 1 ≤ n) : wrap n 0 = 0 := by
  have : (0 : Int) < 2 ^ (n - 1) := by positivity
  exact wrap_eq_self h (by omega) (by omega)

theorem two_le_two_pow_pred {n : Nat} (h : 2 ≤ n) : (2 : Int) ≤ 2 ^ (n - 1) := by
  have := pow_le_pow_right₀ (show (1 : Int) ≤ 2 by norm_num)
    (show 1 ≤ n - 1 by omega)
  simpa using this

theorem wrap_one {n : Nat} (h : 2 ≤ n) : wrap n 1 = 1 := by
  have := two_le_two_pow_pred h
  exact wrap_eq_self (by omega) (by omega) (by omega)

theorem wrap_intMin {n : Nat} (h : 1 ≤ n) : wrap n (intMin n) = intMin n := by
  have : (0 : Int) < 2 ^ (n - 1) := by positivity
  exact wrap_eq_self h (by simp [intMin]) (by unfold intMin; omega)

theorem intMin_ne_zero {n : Nat} : intMin n ≠ 0 := by
  have : (0 : Int) < 2 ^ (n - 1) := by positivity
  simp only [intMin]
  omega

theorem wrap_congr {n : Nat} {x y : Int} (h : x % 2 ^ n = y % 2 ^ n) :
    wrap n x = wrap n y := by
  unfold wrap
  rw [Int.add_emod x, Int.add_emod y, h]

theorem wrap_emod {n : Nat} (x : Int) : wrap n x % 2 ^ n = x % 2 ^ n := by
  unfold wrap
  rw [Int.sub_emod, Int.emod_emod_of_dvd _ dvd_rfl, ← Int.sub_emod]
  simp

theorem wrap_add_wrap {n : Nat} (x y : Int) :
    wrap n (x + wrap n y) = wrap n (x + y) := by
  apply wrap_congr
  rw [Int.add_emod x (wrap n y), wrap_emod, ← Int.add_emod]

/-! ## The division loop versus the claimed per-iteration behaviour -/

theorem divStep_val (n : Nat) (one a b : IntG n) (hone : one.val = 1)
    (rq : IntG n × IntG n) (j : Nat) :
    ((divStep n one a b rq j).1.val, (divStep n one a b rq j).2.val) =
      claimedDivStep n a b (rq.1.val, rq.2.val) j := by
  obtain ⟨r, q⟩ := rq
  simp only [divStep, claimedDivStep, addG, subG, negG, geG, condSelect, bitG,
    hone, two_mul]
  cases hbit : (toNat2c n a.val).testBit j <;>
    simp only [hbit, Bool.cond_false, Bool.cond_true] <;>
    simp only [Bool.cond_decide] <;>
    split_ifs with hc
  case pos | pos => simp [wrap_add_wrap, sub_eq_add_neg]
  case neg | neg => rfl

theorem foldl_divStep_val (n : Nat) (one a b : IntG n) (hone : one.val = 1) :
    ∀ (l : List Nat) (r q : IntG n),
      ((l.foldl (divStep n one a b) (r, q)).1.val,
       (l.foldl (divStep n one a b) (r, q)).2.val) =
      l.foldl (claimedDivStep n a b) (r.val, q.val) := by
  intro l
  induction l with
  | nil => intro r q; rfl
  | cons j t ih =>
    intro r q
    rw [List.foldl_cons, List.foldl_cons]
    rw [← divStep_val n one a b hone (r, q) j]
    have := ih (divStep n one a b (r, q) j).1 (divStep n one a b (r, q) j).2
    simpa using this

theorem divIterBits_eq (n : Nat) (h : 1 ≤ n) :
    divIterBits n = (List.range (n - 1)).reverse := by
  cases n with
  | zero => omega
  | succ m => simp [divIterBits, List.range_succ]

/-! ## ASCII facts about decimal rendering -/

theorem digitChar_ascii (n : Nat) : (Nat.digitChar n).toNat < 128 := by
  rcases Nat.lt_or_ge n 16 with h | h
  · interval_cases n <;> decide
  · have hstar : Nat.digitChar n = '*' := by
      unfold Nat.digitChar
      rw [if_neg (by omega : ¬ n = 0), if_neg (by omega : ¬ n = 1),
        if_neg (by omega : ¬ n = 2), if_neg (by omega : ¬ n = 3),
        if_neg (by omega : ¬ n = 4), if_neg (by omega : ¬ n = 5),
        if_neg (by omega : ¬ n = 6), if_neg (by omega : ¬ n = 7),
        if_neg (by omega : ¬ n = 8), if_neg (by omega : ¬ n = 9),
        if_neg (by omega : ¬ n = 10), if_neg (by omega : ¬ n = 11),
        if_neg (by omega : ¬ n = 12), if_neg (by omega : ¬ n = 13),
        if_neg (by omega : ¬ n = 14), if_neg (by omega : ¬ n = 15)]
    rw [hstar]; decide

theorem toDigitsCore_ascii (b : Nat) : ∀ (fuel n : Nat) (acc : List Char),
    (∀ c ∈ acc, c.toNat < 128) →
    ∀ c ∈ Nat.toDigitsCore b fuel n acc, c.toNat < 128 := by
  intro fuel
  induction fuel with
  | zero => intro n acc hacc; simpa [Nat.toDigitsCore] using hacc
  | succ fuel ih =>
    intro n acc hacc c hc
    by_cases h : n / b = 0
    · simp [Nat.toDigitsCore, h] at hc
      rcases hc with hc | hc
      · rw [hc]; exact digitChar_ascii _
      · exact hacc c hc
    · simp [Nat.toDigitsCore, h] at hc
      refine ih (n / b) _ ?_ c hc
      intro d hd
      simp only [List.mem_cons] at hd
      rcases hd with hd | hd
      · rw [hd]; exact digitChar_ascii _
      · exact hacc d hd

theorem natRepr_ascii (n : Nat) : asciiOnly (Nat.repr n) = true := by
  simp only [asciiOnly, Nat.repr, List.all_eq_true]
  intro c hc
  have : c ∈ Nat.toDigitsCore 10 (n + 1) n [] := by
    simpa [Nat.toDigits, List.asString] using hc
  simpa using toDigitsCore_ascii 10 (n + 1) n [] (by simp) c this

theorem intRepr_ascii (x : Int) : asciiOnly (Int.repr x) = true := by
  cases x with
  | ofNat m => simpa [Int.repr] using natRepr_ascii m
  | negSucc m =>
    have h1 := natRepr_ascii (m + 1)
    simp only [Int.repr, asciiOnly, List.all_eq_true] at *
    intro c hc
    have hdata : ("-" ++ Nat.repr (m + 1) : String).data
        = '-' :: (Nat.repr (m + 1)).data := rfl
    rw [Nat.succ_eq_add_one, hdata, List.mem_cons] at hc
    rcases hc with hc | hc
    · rw [hc]; decide
    · exact h1 c hc

theorem data_append (s t : String) : (s ++ t).data = s.data ++ t.data := rfl

theorem asciiOnly_append (s t : String) :
    asciiOnly (s ++ t) = (asciiOnly s && asciiOnly t) := by
  simp [asciiOnly, data_append, List.all_append]

theorem displayInteger_ascii (a : Integer) :
    asciiOnly (displayInteger a) = true := by
  cases a <;> simp [displayInteger, natRepr_ascii, intRepr_ascii]

/-! ## Helper for the allocation type invariant -/

theorem allocate_type_get_type_aux (t : IntegerType) (name : String)
    (o : Option String) (sp : Span) (res : Integer)
    (h : Integer.allocate_type t name o sp = .ok res) : res.get_type = t := by
  cases t <;> cases o <;> simp only [Integer.allocate_type] at h
  all_goals
    first
      | exact Outcome.noConfusion h
      | (split at h
         · injection h with h2
           subst h2
           rfl
         · exact Outcome.noConfusion h)

/-! ## Claim theorems -/

/-- C1: for every signed integer kind and every dividend `x`, the division
gadget applied to `x` and a divisor whose tracked value is zero fails with
`DivisionByZero`, regardless of whether the divisor is a compile-time
constant (`isConst = true`) or an allocated variable (`isConst = false`). -/
theorem claim_C1_div_by_zero (k : SignedIntKind) (x : IntG k.width) (c : Bool) :
    divG k.width x ⟨c, 0⟩ = .error .DivisionByZero := by
  have h1 : (1 : Nat) ≤ k.width := by have := k.two_le_width; omega
  simp [divG, eqG, constG, wrap_zero h1]

/-- C2: for every signed kind of width `n` with `MIN = -2^(n-1)`, the
division gadget returns value 1 when both operands are `MIN`; value 0 when
the divisor is `MIN` and the dividend is not; and value 0 when the dividend
is 0 and the divisor is nonzero. -/
theorem claim_C2_division_specials (k : SignedIntKind) :
    (∀ x y : IntG k.width, x.val = intMin k.width → y.val = intMin k.width →
      ∃ r, divG k.width x y = .ok r ∧ r.val = 1) ∧
    (∀ x y : IntG k.width, x.val ≠ intMin k.width → y.val = intMin k.width →
      ∃ r, divG k.width x y = .ok r ∧ r.val = 0) ∧
    (∀ x y : IntG k.width, x.val = 0 → y.val ≠ 0 →
      ∃ r, divG k.width x y = .ok r ∧ r.val = 0) := by
  have h2 : 2 ≤ k.width := k.two_le_width
  have h1 : (1 : Nat) ≤ k.width := by omega
  have hne : intMin k.width ≠ 0 := intMin_ne_zero
  have e0 : (intMin k.width == (0 : Int)) = false := by simp [hne]
  refine ⟨?_, ?_, ?_⟩
  · intro x y hx hy
    refine ⟨⟨false, wrap k.width 1⟩, ?_, wrap_one h2⟩
    simp [divG, eqG, constG, allocG, evalEq, bAnd, condSelect, bCondSelect,
      wrap_zero h1, wrap_intMin h1, hx, hy, e0]
  · intro x y hx hy
    have exm : (x.val == intMin k.width) = false := by simp [hx]
    by_cases hx0 : x.val = 0
    · refine ⟨x, ?_, hx0⟩
      simp [divG, eqG, constG, allocG, evalEq, bAnd, condSelect, bCondSelect,
        wrap_zero h1, wrap_intMin h1, hy, hx0, e0, exm]
    · have ex0 : (x.val == (0 : Int)) = false := by simp [hx0]
      refine ⟨⟨false, wrap k.width 0⟩, ?_, wrap_zero h1⟩
      simp [divG, eqG, constG, allocG, evalEq, bAnd, condSelect, bCondSelect,
        wrap_zero h1, wrap_intMin h1, hy, e0, exm, ex0]
  · intro x y hx hy
    have ey0 : (y.val == (0 : Int)) = false := by simp [hy]
    refine ⟨x, ?_, hx⟩
    simp [divG, eqG, constG, allocG, evalEq, bAnd, condSelect, bCondSelect,
      wrap_zero h1, hx, ey0]

theorem claim_C2_division_specials_witness :
    (∃ r, divG 8 (constG 8 (-128)) (constG 8 (-128)) = .ok r ∧ r.val = 1) ∧
    (∃ r, divG 8 (constG 8 5) (constG 8 (-128)) = .ok r ∧ r.val = 0) ∧
    (∃ r, divG 8 (constG 8 0) (constG 8 7) = .ok r ∧ r.val = 0) :=
  ⟨(claim_C2_division_specials .i8).1 _ _ (by decide) (by decide),
   (claim_C2_division_specials .i8).2.1 _ _ (by decide) (by decide),
   (claim_C2_division_specials .i8).2.2 _ _ (by decide) (by decide)⟩

set_option maxRecDepth 4000 in
/-- C3: the division gadget is not sound on constant operands: dividing the
constant `-128` by the constant `1` at width 8 returns the constant `-127`,
while the native two's-complement result is `-128` (no overflow or
division-by-zero applies).  The gadget substitutes `MIN+1` for a `MIN`
dividend before taking absolute values. -/
theorem claim_C3_min_dividend_divergence :
    divG 8 (constG 8 (-128)) (constG 8 1) = .ok ⟨true, -127⟩
    ∧ ((-128 : Int) / 1 = -128) ∧ ((-127 : Int) ≠ -128) :=
  ⟨rfl, by norm_num, by decide⟩

/-- C7 counterexample: the division loop does not iterate over bit indices
`n-1` down to `0`; at width 8 it visits only `[6, 5, 4, 3, 2, 1, 0]` —
`skip(1)` drops the most significant bit. -/
theorem claim_C7_counterexample :
    divIterBits 8 ≠ (List.range 8).reverse ∧
    divIterBits 8 = [6, 5, 4, 3, 2, 1, 0] := by decide

/-- C7 amended: the division loop performs one iteration for each bit index
`i` from `n-2` down to `0` (the most significant bit of the absolute
numerator is skipped), and each iteration shifts the remainder left by one,
injects numerator bit `i`, conditionally subtracts the divisor when the
remainder is greater than or equal to it, and conditionally sets quotient
bit `i` — as captured by `claimedDivStep`. -/
theorem claim_C7_amended (n : Nat) (h2 : 2 ≤ n) (one zero a b : IntG n)
    (hone : one.val = 1) (hzero : zero.val = 0) :
    divIterBits n = (List.range (n - 1)).reverse ∧
    ((divLoop n one zero a b).1.val, (divLoop n one zero a b).2.val) =
      (List.range (n - 1)).reverse.foldl (claimedDivStep n a b) (0, 0) := by
  have h1 : (1 : Nat) ≤ n := by omega
  refine ⟨divIterBits_eq n h1, ?_⟩
  rw [divLoop, foldl_divStep_val n one a b hone, divIterBits_eq n h1, hzero]

theorem claim_C7_amended_witness :
    divIterBits 8 = (List.range (8 - 1)).reverse ∧
    ((divLoop 8 (constG 8 1) (constG 8 0) (constG 8 100) (constG 8 7)).1.val,
     (divLoop 8 (constG 8 1) (constG 8 0) (constG 8 100) (constG 8 7)).2.val) =
      (List.range (8 - 1)).reverse.foldl
        (claimedDivStep 8 (constG 8 100) (constG 8 7)) (0, 0) :=
  claim_C7_amended 8 (by decide) _ _ _ _ (by decide) (by decide)


/-- C4 counterexample: `from_input` accepts an input tagged `u8` for a
declared `i8` parameter — the tag is ignored and allocation succeeds, so a
kind mismatch does not fail with `InvalidInteger`. -/
theorem claim_C4_counterexample :
    Integer.from_input .i8 "a" (some (.integer .u8 "1")) ⟨1, 1⟩ =
      .ok (.I8 ⟨false, 1⟩) := by decide

/-- C4 amended: `from_input` validates only that an explicit input is an
integer input at all: a non-integer input fails with `InvalidInteger`, while
any integer-tagged input — whatever its kind tag — is passed on to
`allocate_type` at the declared kind. -/
theorem claim_C4_amended (t : IntegerType) (name : String) (sp : Span)
    (v : InputValue) :
    (∀ tag num, v = .integer tag num →
      Integer.from_input t name (some v) sp =
        Integer.allocate_type t name (some num) sp) ∧
    ((∀ tag num, v ≠ .integer tag num) →
      Integer.from_input t name (some v) sp =
        .err (.invalidInteger (displayInputValue v) sp)) := by
  constructor
  · rintro tag num rfl
    rfl
  · intro h
    cases v
    case integer tag num => exact absurd rfl (h tag num)
    all_goals rfl

theorem claim_C4_amended_witness :
    Integer.from_input .i8 "a" (some (.boolean true)) ⟨1, 1⟩ =
      .err (.invalidInteger (displayInputValue (.boolean true)) ⟨1, 1⟩) ∧
    Integer.from_input .i8 "a" (some (.integer .u8 "1")) ⟨1, 1⟩ =
      Integer.allocate_type .i8 "a" (some "1") ⟨1, 1⟩ :=
  ⟨(claim_C4_amended .i8 "a" ⟨1, 1⟩ (.boolean true)).2
      (fun tag num h => by cases h),
   (claim_C4_amended .i8 "a" ⟨1, 1⟩ (.integer .u8 "1")).1 .u8 "1" rfl⟩

/-- C5: on a decimal string that does not parse at the declared width,
`allocate_type` panics — the code maps the parse error to
`InvalidInteger{value, span}` and then calls `.unwrap()` on the `Err` —
instead of returning the error result the claim (and spec) describe.  When
the value is absent it does return `MissingInteger` as claimed. -/
theorem claim_C5_allocate_type_panics :
    Integer.allocate_type .u8 "a" (some "256") ⟨1, 1⟩ =
      .panicked (.invalidInteger "256" ⟨1, 1⟩) ∧
    Integer.allocate_type .u8 "a" none ⟨1, 1⟩ =
      .err (.missingInteger "a: u8" ⟨1, 1⟩) := by decide

/-- C6 counterexample: the namespace label of `div` is not an ASCII string:
its operator is the Unicode division sign `÷`. -/
theorem claim_C6_counterexample :
    asciiOnly (divNamespace (.I8 ⟨true, 5⟩) (.I8 ⟨true, 2⟩) ⟨3, 4⟩) = false ∧
    divNamespace (.I8 ⟨true, 5⟩) (.I8 ⟨true, 2⟩) ⟨3, 4⟩ =
      "enforce 5 ÷ 2 3:4" := by decide

/-- C6 amended: for the binary operations `+`, `-`, `*`, `**` the label
`"enforce <lhs> <op> <rhs> <line>:<col>"` is ASCII for all operands; the
negate label (of unary form `"enforce -<operand> <line>:<col>"`) is also
ASCII; the `div` label is never ASCII, since its operator is `÷`. -/
theorem claim_C6_amended (a b : Integer) (sp : Span) :
    asciiOnly (addNamespace a b sp) = true ∧
    asciiOnly (subNamespace a b sp) = true ∧
    asciiOnly (mulNamespace a b sp) = true ∧
    asciiOnly (powNamespace a b sp) = true ∧
    asciiOnly (negateNamespace a sp) = true ∧
    asciiOnly (divNamespace a b sp) = false := by
  refine ⟨?_, ?_, ?_, ?_, ?_, ?_⟩ <;>
    simp [addNamespace, subNamespace, mulNamespace, powNamespace,
      negateNamespace, divNamespace, asciiOnly_append, displayInteger_ascii,
      natRepr_ascii] <;>
    decide

/-- C8 counterexample: with all stages selected, a run whose
canonicalization stage fails exits with an error but has already written
`initial.json` — a failing run does not leave zero output files. -/
theorem claim_C8_counterexample :
    @stagesMain Unit Unit Unit ⟨true, true, true, true⟩ (.ok ())
      (fun _ => .error ()) (fun _ => .ok ()) (fun _ _ => .ok ()) =
      (.error (), ["initial.json"]) ∧
    ("initial.json" :: []) ≠ ([] : List String) := ⟨rfl, by decide⟩

/-- C8 amended: a failing run writes exactly the selected dump files of the
stages that completed before the failing stage: nothing when parsing fails;
`initial.json` (if selected) when canonicalization fails; `initial.json`
and `canonicalization.json` (as selected) when ASG building or type
inference fails. -/
theorem claim_C8_amended {Ast Asg E : Type} (flags : StageFlags)
    (parse : Except E Ast) (canonicalize : Ast → Except E Ast)
    (asgBuild : Ast → Except E Asg) (inference : Ast → Asg → Except E Ast) :
    (∀ e, parse = .error e →
      stagesMain flags parse canonicalize asgBuild inference =
        (.error e, [])) ∧
    (∀ ast e, parse = .ok ast → canonicalize ast = .error e →
      stagesMain flags parse canonicalize asgBuild inference =
        (.error e, if flags.all || flags.initial then ["initial.json"] else [])) ∧
    (∀ ast ast2 e, parse = .ok ast → canonicalize ast = .ok ast2 →
      asgBuild ast2 = .error e →
      stagesMain flags parse canonicalize asgBuild inference =
        (.error e,
          (if flags.all || flags.initial then ["initial.json"] else []) ++
          (if flags.all || flags.canonicalization then ["canonicalization.json"] else []))) ∧
    (∀ ast ast2 asg e, parse = .ok ast → canonicalize ast = .ok ast2 →
      asgBuild ast2 = .ok asg → inference ast2 asg = .error e →
      stagesMain flags parse canonicalize asgBuild inference =
        (.error e,
          (if flags.all || flags.initial then ["initial.json"] else []) ++
          (if flags.all || flags.canonicalization then ["canonicalization.json"] else []))) := by
  refine ⟨?_, ?_, ?_, ?_⟩ <;> intros <;> simp_all [stagesMain]

theorem claim_C8_amended_witness :
    @stagesMain Unit Unit Unit ⟨true, true, true, true⟩ (.ok ())
      (fun _ => .error ()) (fun _ => .ok ()) (fun _ _ => .ok ()) =
      (.error (), ["initial.json"]) :=
  (claim_C8_amended ⟨true, true, true, true⟩ (.ok ())
      (fun _ => .error ()) (fun _ => .ok ()) (fun _ _ => .ok ())).2.1 () () rfl rfl

/-- C10: whenever `allocate_type` — and hence `from_input` — returns
successfully, the returned `Integer`'s `get_type` equals the requested
integer type. -/
theorem claim_C10_get_type :
    (∀ (t : IntegerType) (name : String) (o : Option String) (sp : Span)
        (res : Integer), Integer.allocate_type t name o sp = .ok res →
        res.get_type = t) ∧
    (∀ (t : IntegerType) (name : String) (iv : Option InputValue) (sp : Span)
        (res : Integer), Integer.from_input t name iv sp = .ok res →
        res.get_type = t) := by
  refine ⟨allocate_type_get_type_aux, ?_⟩
  intro t name iv sp res h
  match iv with
  | none => exact allocate_type_get_type_aux t name none sp res h
  | some (.integer tag num) =>
    exact allocate_type_get_type_aux t name (some num) sp res h
  | some (.boolean _) | some (.field _) | some (.group _)
  | some (.address _) | some (.char _) | some (.array _) | some (.tuple _) =>
    exact Outcome.noConfusion h

theorem claim_C10_get_type_witness :
    Integer.get_type (.U8 ⟨false, 5⟩) = .u8 ∧
    Integer.get_type (.I8 ⟨false, 1⟩) = .i8 :=
  ⟨claim_C10_get_type.1 .u8 "a" (some "5") ⟨1, 1⟩ (.U8 ⟨false, 5⟩) (by decide),
   claim_C10_get_type.2 .i8 "a" (some (.integer .u8 "1")) ⟨1, 1⟩
     (.I8 ⟨false, 1⟩) (by decide)⟩

/-! ## Invariants of the reconstructing director -/

theorem dirOk_pure {α : Type} (v : Except CanonicalizeError α) (s : DirState) :
    DirOk s (v, s) :=
  ⟨id, fun _ _ => rfl⟩

theorem dirOk_andThen {α β : Type} {s : DirState}
    {x : Except CanonicalizeError α × DirState}
    {f : α → DirState → Except CanonicalizeError β × DirState}
    (hx : DirOk s x)
    (hf : ∀ v, x.1 = .ok v → DirOk x.2 (f v x.2)) :
    DirOk s (andThen x f) := by
  obtain ⟨res, s1⟩ := x
  cases res with
  | error e =>
    simp only [andThen]
    exact ⟨hx.1, fun w hw => Except.noConfusion hw⟩
  | ok v =>
    have hf2 := hf v rfl
    simp only [andThen]
    refine ⟨fun hl => hf2.1 (hx.1 hl), fun w hw => ?_⟩
    exact (hf2.2 w hw).trans (hx.2 v rfl)

theorem dirOk_callHook {α : Type} {gt : Bool}
    (hook : Bool → Except CanonicalizeError α) {s : DirState}
    (hs : s.in_circuit = gt) : DirOk s (callHook gt hook s) := by
  refine ⟨fun hl p hp => ?_, fun w _ => rfl⟩
  simp only [callHook, List.mem_append, List.mem_singleton] at hp
  rcases hp with hp | hp
  · exact hl p hp
  · rw [hp, hs]

/-- After a successful step from a state with `in_circuit = gt`, the
reached state still has `in_circuit = gt`. -/
theorem dirOk_state {α : Type} {s : DirState} {gt : Bool}
    {x : Except CanonicalizeError α × DirState} (hx : DirOk s x)
    (hs : s.in_circuit = gt) {v : α} (hv : x.1 = .ok v) :
    x.2.in_circuit = gt := (hx.2 v hv).trans hs

theorem reduce_identifier_inv (r : Reducer) (identifier : Identifier)
    (s : DirState) : DirOk s (reduce_identifier r identifier s) :=
  dirOk_pure _ s

theorem reduce_group_tuple_inv (r : Reducer) (group_tuple : GroupTuple)
    (s : DirState) : DirOk s (reduce_group_tuple r group_tuple s) :=
  dirOk_pure _ s

theorem reduce_group_value_inv (r : Reducer) (group_value : GroupValue)
    (s : DirState) : DirOk s (reduce_group_value r group_value s) := by
  match group_value with
  | .tuple group_tuple =>
    rw [reduce_group_value]
    exact dirOk_andThen
      (dirOk_andThen (reduce_group_tuple_inv r group_tuple s)
        (fun v hv => dirOk_pure _ _))
      (fun v hv => dirOk_pure _ _)
  | .single a b =>
    rw [reduce_group_value]
    · exact dirOk_andThen (dirOk_pure _ _) (fun v hv => dirOk_pure _ _)
    all_goals simp

theorem reduce_value_inv (r : Reducer) (value : ValueExpression) (s : DirState) :
    DirOk s (reduce_value r value s) := by
  match value with
  | .group group_value =>
    rw [reduce_value]
    exact dirOk_andThen
      (dirOk_andThen (reduce_group_value_inv r group_value s)
        (fun v hv => dirOk_pure _ _))
      (fun v hv => dirOk_pure _ _)
  | .address a b | .boolean a b | .char a b | .field a b | .implicit a b =>
    rw [reduce_value]
    · exact dirOk_andThen (dirOk_pure _ _) (fun v hv => dirOk_pure _ _)
    all_goals simp
  | .integer a b c =>
    rw [reduce_value]
    · exact dirOk_andThen (dirOk_pure _ _) (fun v hv => dirOk_pure _ _)
    all_goals simp

mutual

theorem reduce_type_inv (r : Reducer) (gt : Bool) (type_ : AstType) (span : Span)
    (s : DirState) (hs : s.in_circuit = gt) :
    DirOk s (reduce_type r gt type_ span s) := by
  match type_ with
  | .array t dims =>
    rw [reduce_type]
    have h1 : DirOk s (andThen (reduce_type r gt t span s) fun t2 s =>
        ((.ok (AstType.array t2 dims) : Except CanonicalizeError AstType), s)) :=
      dirOk_andThen (reduce_type_inv r gt t span s hs) (fun v hv => dirOk_pure _ _)
    exact dirOk_andThen h1 (fun v hv => dirOk_callHook _ (dirOk_state h1 hs hv))
  | .tuple types =>
    rw [reduce_type]
    have h1 : DirOk s (andThen (reduce_type_list r gt types span s) fun ts s =>
        ((.ok (AstType.tuple ts) : Except CanonicalizeError AstType), s)) :=
      dirOk_andThen (reduce_type_list_inv r gt types span s hs)
        (fun v hv => dirOk_pure _ _)
    exact dirOk_andThen h1 (fun v hv => dirOk_callHook _ (dirOk_state h1 hs hv))
  | .circuit identifier =>
    rw [reduce_type]
    have h1 : DirOk s (andThen (reduce_identifier r identifier s) fun i s =>
        ((.ok (AstType.circuit i) : Except CanonicalizeError AstType), s)) :=
      dirOk_andThen (reduce_identifier_inv r identifier s)
        (fun v hv => dirOk_pure _ _)
    exact dirOk_andThen h1 (fun v hv => dirOk_callHook _ (dirOk_state h1 hs hv))
  | .address =>
    rw [reduce_type]
    · exact dirOk_andThen (dirOk_pure _ _) (fun v hv => dirOk_callHook _ hs)
    all_goals simp
  | .boolean =>
    rw [reduce_type]
    · exact dirOk_andThen (dirOk_pure _ _) (fun v hv => dirOk_callHook _ hs)
    all_goals simp
  | .char =>
    rw [reduce_type]
    · exact dirOk_andThen (dirOk_pure _ _) (fun v hv => dirOk_callHook _ hs)
    all_goals simp
  | .fieldType =>
    rw [reduce_type]
    · exact dirOk_andThen (dirOk_pure _ _) (fun v hv => dirOk_callHook _ hs)
    all_goals simp
  | .group =>
    rw [reduce_type]
    · exact dirOk_andThen (dirOk_pure _ _) (fun v hv => dirOk_callHook _ hs)
    all_goals simp
  | .integer t =>
    rw [reduce_type]
    · exact dirOk_andThen (dirOk_pure _ _) (fun v hv => dirOk_callHook _ hs)
    all_goals simp
  | .selfType =>
    rw [reduce_type]
    · exact dirOk_andThen (dirOk_pure _ _) (fun v hv => dirOk_callHook _ hs)
    all_goals simp

theorem reduce_type_list_inv (r : Reducer) (gt : Bool) (types : List AstType)
    (span : Span) (s : DirState) (hs : s.in_circuit = gt) :
    DirOk s (reduce_type_list r gt types span s) := by
  match types with
  | [] => exact dirOk_pure _ _
  | t :: rest =>
    rw [reduce_type_list]
    have h1 := reduce_type_inv r gt t span s hs
    exact dirOk_andThen h1 (fun v hv =>
      dirOk_andThen
        (reduce_type_list_inv r gt rest span _ (dirOk_state h1 hs hv))
        (fun w hw => dirOk_pure _ _))

end

theorem reduce_type_option_inv (r : Reducer) (gt : Bool) (o : Option AstType)
    (span : Span) (s : DirState) (hs : s.in_circuit = gt) :
    DirOk s (reduce_type_option r gt o span s) := by
  match o with
  | none => exact dirOk_pure _ _
  | some t =>
    rw [reduce_type_option]
    exact dirOk_andThen (reduce_type_inv r gt t span s hs)
      (fun v hv => dirOk_pure _ _)

mutual

theorem reduce_expression_inv (r : Reducer) (gt : Bool) (expression : Expression)
    (s : DirState) (hs : s.in_circuit = gt) :
    DirOk s (reduce_expression r gt expression s) := by
  match expression with
  | .identifier identifier =>
    rw [reduce_expression]
    have h1 : DirOk s (andThen (reduce_identifier r identifier s) fun i s =>
        ((.ok (Expression.identifier i) : Except CanonicalizeError Expression), s)) :=
      dirOk_andThen (reduce_identifier_inv r identifier s) (fun v hv => dirOk_pure _ _)
    exact dirOk_andThen h1 (fun v hv => dirOk_callHook _ (dirOk_state h1 hs hv))
  | .value value =>
    rw [reduce_expression]
    have h1 : DirOk s (andThen (reduce_value r value s) fun v s =>
        ((.ok (Expression.value v) : Except CanonicalizeError Expression), s)) :=
      dirOk_andThen (reduce_value_inv r value s) (fun v hv => dirOk_pure _ _)
    exact dirOk_andThen h1 (fun v hv => dirOk_callHook _ (dirOk_state h1 hs hv))
  | .binary binary =>
    rw [reduce_expression]
    have h1 : DirOk s (andThen (reduce_binary r gt binary s) fun b s =>
        ((.ok (Expression.binary b) : Except CanonicalizeError Expression), s)) :=
      dirOk_andThen (reduce_binary_inv r gt binary s hs) (fun v hv => dirOk_pure _ _)
    exact dirOk_andThen h1 (fun v hv => dirOk_callHook _ (dirOk_state h1 hs hv))
  | .unary unary =>
    rw [reduce_expression]
    have h1 : DirOk s (andThen (reduce_unary r gt unary s) fun u s =>
        ((.ok (Expression.unary u) : Except CanonicalizeError Expression), s)) :=
      dirOk_andThen (reduce_unary_inv r gt unary s hs) (fun v hv => dirOk_pure _ _)
    exact dirOk_andThen h1 (fun v hv => dirOk_callHook _ (dirOk_state h1 hs hv))
  | .ternary ternary =>
    rw [reduce_expression]
    have h1 : DirOk s (andThen (reduce_ternary r gt ternary s) fun t s =>
        ((.ok (Expression.ternary t) : Except CanonicalizeError Expression), s)) :=
      dirOk_andThen (reduce_ternary_inv r gt ternary s hs) (fun v hv => dirOk_pure _ _)
    exact dirOk_andThen h1 (fun v hv => dirOk_callHook _ (dirOk_state h1 hs hv))
  | .cast cast =>
    rw [reduce_expression]
    have h1 : DirOk s (andThen (reduce_cast r gt cast s) fun c s =>
        ((.ok (Expression.cast c) : Except CanonicalizeError Expression), s)) :=
      dirOk_andThen (reduce_cast_inv r gt cast s hs) (fun v hv => dirOk_pure _ _)
    exact dirOk_andThen h1 (fun v hv => dirOk_callHook _ (dirOk_state h1 hs hv))
  | .arrayInline array_inline =>
    rw [reduce_expression]
    have h1 : DirOk s (andThen (reduce_array_inline r gt array_inline s) fun a s =>
        ((.ok (Expression.arrayInline a) : Except CanonicalizeError Expression), s)) :=
      dirOk_andThen (reduce_array_inline_inv r gt array_inline s hs)
        (fun v hv => dirOk_pure _ _)
    exact dirOk_andThen h1 (fun v hv => dirOk_callHook _ (dirOk_state h1 hs hv))
  | .arrayInit array_init =>
    rw [reduce_expression]
    have h1 : DirOk s (andThen (reduce_array_init r gt array_init s) fun a s =>
        ((.ok (Expression.arrayInit a) : Except CanonicalizeError Expression), s)) :=
      dirOk_andThen (reduce_array_init_inv r gt array_init s hs)
        (fun v hv => dirOk_pure _ _)
    exact dirOk_andThen h1 (fun v hv => dirOk_callHook _ (dirOk_state h1 hs hv))
  | .arrayAccess array_access =>
    rw [reduce_expression]
    have h1 : DirOk s (andThen (reduce_array_access r gt array_access s) fun a s =>
        ((.ok (Expression.arrayAccess a) : Except CanonicalizeError Expression), s)) :=
      dirOk_andThen (reduce_array_access_inv r gt array_access s hs)
        (fun v hv => dirOk_pure _ _)
    exact dirOk_andThen h1 (fun v hv => dirOk_callHook _ (dirOk_state h1 hs hv))
  | .arrayRangeAccess array_range_access =>
    rw [reduce_expression]
    have h1 : DirOk s (andThen (reduce_array_range_access r gt array_range_access s)
        fun a s =>
        ((.ok (Expression.arrayRangeAccess a) : Except CanonicalizeError Expression), s)) :=
      dirOk_andThen (reduce_array_range_access_inv r gt array_range_access s hs)
        (fun v hv => dirOk_pure _ _)
    exact dirOk_andThen h1 (fun v hv => dirOk_callHook _ (dirOk_state h1 hs hv))
  | .tupleInit tuple_init =>
    rw [reduce_expression]
    have h1 : DirOk s (andThen (reduce_tuple_init r gt tuple_init s) fun t s =>
        ((.ok (Expression.tupleInit t) : Except CanonicalizeError Expression), s)) :=
      dirOk_andThen (reduce_tuple_init_inv r gt tuple_init s hs)
        (fun v hv => dirOk_pure _ _)
    exact dirOk_andThen h1 (fun v hv => dirOk_callHook _ (dirOk_state h1 hs hv))
  | .tupleAccess tuple_access =>
    rw [reduce_expression]
    have h1 : DirOk s (andThen (reduce_tuple_access r gt tuple_access s) fun t s =>
        ((.ok (Expression.tupleAccess t) : Except CanonicalizeError Expression), s)) :=
      dirOk_andThen (reduce_tuple_access_inv r gt tuple_access s hs)
        (fun v hv => dirOk_pure _ _)
    exact dirOk_andThen h1 (fun v hv => dirOk_callHook _ (dirOk_state h1 hs hv))
  | .circuitInit circuit_init =>
    rw [reduce_expression]
    have h1 : DirOk s (andThen (reduce_circuit_init r gt circuit_init s) fun c s =>
        ((.ok (Expression.circuitInit c) : Except CanonicalizeError Expression), s)) :=
      dirOk_andThen (reduce_circuit_init_inv r gt circuit_init s hs)
        (fun v hv => dirOk_pure _ _)
    exact dirOk_andThen h1 (fun v hv => dirOk_callHook _ (dirOk_state h1 hs hv))
  | .circuitMemberAccess circuit_member_access =>
    rw [reduce_expression]
    have h1 : DirOk s (andThen
        (reduce_circuit_member_access r gt circuit_member_access s) fun c s =>
        ((.ok (Expression.circuitMemberAccess c) : Except CanonicalizeError Expression), s)) :=
      dirOk_andThen (reduce_circuit_member_access_inv r gt circuit_member_access s hs)
        (fun v hv => dirOk_pure _ _)
    exact dirOk_andThen h1 (fun v hv => dirOk_callHook _ (dirOk_state h1 hs hv))
  | .circuitStaticFunctionAccess circuit_static_fn_access =>
    rw [reduce_expression]
    have h1 : DirOk s (andThen
        (reduce_circuit_static_fn_access r gt circuit_static_fn_access s) fun c s =>
        ((.ok (Expression.circuitStaticFunctionAccess c) : Except CanonicalizeError Expression), s)) :=
      dirOk_andThen
        (reduce_circuit_static_fn_access_inv r gt circuit_static_fn_access s hs)
        (fun v hv => dirOk_pure _ _)
    exact dirOk_andThen h1 (fun v hv => dirOk_callHook _ (dirOk_state h1 hs hv))
  | .call call =>
    rw [reduce_expression]
    have h1 : DirOk s (andThen (reduce_call r gt call s) fun c s =>
        ((.ok (Expression.call c) : Except CanonicalizeError Expression), s)) :=
      dirOk_andThen (reduce_call_inv r gt call s hs) (fun v hv => dirOk_pure _ _)
    exact dirOk_andThen h1 (fun v hv => dirOk_callHook _ (dirOk_state h1 hs hv))

theorem reduce_binary_inv (r : Reducer) (gt : Bool) (binary : BinaryExpression)
    (s : DirState) (hs : s.in_circuit = gt) :
    DirOk s (reduce_binary r gt binary s) := by
  match binary with
  | .mk bleft bright op span =>
    rw [reduce_binary]
    have h1 := reduce_expression_inv r gt bleft s hs
    exact dirOk_andThen h1 (fun v hv =>
      let hs1 := dirOk_state h1 hs hv
      let h2 := reduce_expression_inv r gt bright _ hs1
      dirOk_andThen h2 (fun w hw => dirOk_callHook _ (dirOk_state h2 hs1 hw)))

theorem reduce_unary_inv (r : Reducer) (gt : Bool) (unary : UnaryExpression)
    (s : DirState) (hs : s.in_circuit = gt) :
    DirOk s (reduce_unary r gt unary s) := by
  match unary with
  | .mk uinner op span =>
    rw [reduce_unary]
    have h1 := reduce_expression_inv r gt uinner s hs
    exact dirOk_andThen h1 (fun v hv =>
      dirOk_callHook _ (dirOk_state h1 hs hv))

theorem reduce_ternary_inv (r : Reducer) (gt : Bool) (ternary : TernaryExpression)
    (s : DirState) (hs : s.in_circuit = gt) :
    DirOk s (reduce_ternary r gt ternary s) := by
  match ternary with
  | .mk tcond ttrue tfalse span =>
    rw [reduce_ternary]
    have h1 := reduce_expression_inv r gt tcond s hs
    exact dirOk_andThen h1 (fun v hv =>
      let hs1 := dirOk_state h1 hs hv
      let h2 := reduce_expression_inv r gt ttrue _ hs1
      dirOk_andThen h2 (fun w hw =>
        let hs2 := dirOk_state h2 hs1 hw
        let h3 := reduce_expression_inv r gt tfalse _ hs2
        dirOk_andThen h3 (fun u hu => dirOk_callHook _ (dirOk_state h3 hs2 hu))))

theorem reduce_cast_inv (r : Reducer) (gt : Bool) (cast : CastExpression)
    (s : DirState) (hs : s.in_circuit = gt) :
    DirOk s (reduce_cast r gt cast s) := by
  match cast with
  | .mk cinner ctype span =>
    rw [reduce_cast]
    have h1 := reduce_expression_inv r gt cinner s hs
    exact dirOk_andThen h1 (fun v hv =>
      let hs1 := dirOk_state h1 hs hv
      let h2 := reduce_type_inv r gt ctype span _ hs1
      dirOk_andThen h2 (fun w hw => dirOk_callHook _ (dirOk_state h2 hs1 hw)))

theorem reduce_array_inline_inv (r : Reducer) (gt : Bool)
    (array_inline : ArrayInlineExpression) (s : DirState)
    (hs : s.in_circuit = gt) : DirOk s (reduce_array_inline r gt array_inline s) := by
  match array_inline with
  | .mk aelements span =>
    rw [reduce_array_inline]
    have h1 := reduce_spread_or_expression_list_inv r gt aelements s hs
    exact dirOk_andThen h1 (fun v hv =>
      dirOk_callHook _ (dirOk_state h1 hs hv))

theorem reduce_spread_or_expression_list_inv (r : Reducer) (gt : Bool)
    (elements : List SpreadOrExpression) (s : DirState)
    (hs : s.in_circuit = gt) :
    DirOk s (reduce_spread_or_expression_list r gt elements s) := by
  match elements with
  | [] => exact dirOk_pure _ _
  | .expression e :: rest =>
    rw [reduce_spread_or_expression_list]
    have h1 := reduce_expression_inv r gt e s hs
    exact dirOk_andThen h1 (fun v hv =>
      dirOk_andThen
        (reduce_spread_or_expression_list_inv r gt rest _ (dirOk_state h1 hs hv))
        (fun w hw => dirOk_pure _ _))
  | .spread e :: rest =>
    rw [reduce_spread_or_expression_list]
    have h1 := reduce_expression_inv r gt e s hs
    exact dirOk_andThen h1 (fun v hv =>
      dirOk_andThen
        (reduce_spread_or_expression_list_inv r gt rest _ (dirOk_state h1 hs hv))
        (fun w hw => dirOk_pure _ _))

theorem reduce_array_init_inv (r : Reducer) (gt : Bool)
    (array_init : ArrayInitExpression) (s : DirState) (hs : s.in_circuit = gt) :
    DirOk s (reduce_array_init r gt array_init s) := by
  match array_init with
  | .mk aelement dims span =>
    rw [reduce_array_init]
    have h1 := reduce_expression_inv r gt aelement s hs
    exact dirOk_andThen h1 (fun v hv =>
      dirOk_callHook _ (dirOk_state h1 hs hv))

theorem reduce_array_access_inv (r : Reducer) (gt : Bool)
    (array_access : ArrayAccessExpression) (s : DirState)
    (hs : s.in_circuit = gt) : DirOk s (reduce_array_access r gt array_access s) := by
  match array_access with
  | .mk aarray aindex span =>
    rw [reduce_array_access]
    have h1 := reduce_expression_inv r gt aarray s hs
    exact dirOk_andThen h1 (fun v hv =>
      let hs1 := dirOk_state h1 hs hv
      let h2 := reduce_expression_inv r gt aindex _ hs1
      dirOk_andThen h2 (fun w hw => dirOk_callHook _ (dirOk_state h2 hs1 hw)))

theorem reduce_array_range_access_inv (r : Reducer) (gt : Bool)
    (array_range_access : ArrayRangeAccessExpression) (s : DirState)
    (hs : s.in_circuit = gt) :
    DirOk s (reduce_array_range_access r gt array_range_access s) := by
  match array_range_access with
  | .mk aarray aleft aright span =>
    rw [reduce_array_range_access]
    have h1 := reduce_expression_inv r gt aarray s hs
    exact dirOk_andThen h1 (fun v hv =>
      let hs1 := dirOk_state h1 hs hv
      let h2 := reduce_expression_option_inv r gt aleft _ hs1
      dirOk_andThen h2 (fun w hw =>
        let hs2 := dirOk_state h2 hs1 hw
        let h3 := reduce_expression_option_inv r gt aright _ hs2
        dirOk_andThen h3 (fun u hu => dirOk_callHook _ (dirOk_state h3 hs2 hu))))

theorem reduce_expression_option_inv (r : Reducer) (gt : Bool)
    (o : Option Expression) (s : DirState) (hs : s.in_circuit = gt) :
    DirOk s (reduce_expression_option r gt o s) := by
  match o with
  | none => exact dirOk_pure _ _
  | some e =>
    rw [reduce_expression_option]
    exact dirOk_andThen (reduce_expression_inv r gt e s hs)
      (fun v hv => dirOk_pure _ _)

theorem reduce_tuple_init_inv (r : Reducer) (gt : Bool)
    (tuple_init : TupleInitExpression) (s : DirState) (hs : s.in_circuit = gt) :
    DirOk s (reduce_tuple_init r gt tuple_init s) := by
  match tuple_init with
  | .mk telements span =>
    rw [reduce_tuple_init]
    have h1 := reduce_expression_list_inv r gt telements s hs
    exact dirOk_andThen h1 (fun v hv =>
      dirOk_callHook _ (dirOk_state h1 hs hv))

theorem reduce_expression_list_inv (r : Reducer) (gt : Bool)
    (es : List Expression) (s : DirState) (hs : s.in_circuit = gt) :
    DirOk s (reduce_expression_list r gt es s) := by
  match es with
  | [] => exact dirOk_pure _ _
  | e :: rest =>
    rw [reduce_expression_list]
    have h1 := reduce_expression_inv r gt e s hs
    exact dirOk_andThen h1 (fun v hv =>
      dirOk_andThen
        (reduce_expression_list_inv r gt rest _ (dirOk_state h1 hs hv))
        (fun w hw => dirOk_pure _ _))

theorem reduce_tuple_access_inv (r : Reducer) (gt : Bool)
    (tuple_access : TupleAccessExpression) (s : DirState)
    (hs : s.in_circuit = gt) : DirOk s (reduce_tuple_access r gt tuple_access s) := by
  match tuple_access with
  | .mk ttuple index span =>
    rw [reduce_tuple_access]
    have h1 := reduce_expression_inv r gt ttuple s hs
    exact dirOk_andThen h1 (fun v hv =>
      dirOk_callHook _ (dirOk_state h1 hs hv))

theorem reduce_circuit_implied_variable_definition_inv (r : Reducer) (gt : Bool)
    (var : CircuitImpliedVariableDefinition) (s : DirState)
    (hs : s.in_circuit = gt) :
    DirOk s (reduce_circuit_implied_variable_definition r gt var s) := by
  match var with
  | .mk videntifier vexpression =>
    rw [reduce_circuit_implied_variable_definition]
    have h1 := reduce_identifier_inv r videntifier s
    exact dirOk_andThen h1 (fun v hv =>
      let hs1 := dirOk_state h1 hs hv
      let h2 := reduce_expression_option_inv r gt vexpression _ hs1
      dirOk_andThen h2 (fun w hw => dirOk_callHook _ (dirOk_state h2 hs1 hw)))

theorem reduce_circuit_init_inv (r : Reducer) (gt : Bool)
    (circuit_init : CircuitInitExpression) (s : DirState)
    (hs : s.in_circuit = gt) : DirOk s (reduce_circuit_init r gt circuit_init s) := by
  match circuit_init with
  | .mk cname cmembers span =>
    rw [reduce_circuit_init]
    have h1 := reduce_identifier_inv r cname s
    exact dirOk_andThen h1 (fun v hv =>
      let hs1 := dirOk_state h1 hs hv
      let h2 := reduce_civd_list_inv r gt cmembers _ hs1
      dirOk_andThen h2 (fun w hw => dirOk_callHook _ (dirOk_state h2 hs1 hw)))

theorem reduce_civd_list_inv (r : Reducer) (gt : Bool)
    (members : List CircuitImpliedVariableDefinition) (s : DirState)
    (hs : s.in_circuit = gt) : DirOk s (reduce_civd_list r gt members s) := by
  match members with
  | [] => exact dirOk_pure _ _
  | m :: rest =>
    rw [reduce_civd_list]
    have h1 := reduce_circuit_implied_variable_definition_inv r gt m s hs
    exact dirOk_andThen h1 (fun v hv =>
      dirOk_andThen
        (reduce_civd_list_inv r gt rest _ (dirOk_state h1 hs hv))
        (fun w hw => dirOk_pure _ _))

theorem reduce_circuit_member_access_inv (r : Reducer) (gt : Bool)
    (circuit_member_access : CircuitMemberAccessExpression) (s : DirState)
    (hs : s.in_circuit = gt) :
    DirOk s (reduce_circuit_member_access r gt circuit_member_access s) := by
  match circuit_member_access with
  | .mk ccircuit cname span =>
    rw [reduce_circuit_member_access]
    have h1 := reduce_expression_inv r gt ccircuit s hs
    exact dirOk_andThen h1 (fun v hv =>
      let hs1 := dirOk_state h1 hs hv
      let h2 := reduce_identifier_inv r cname _
      dirOk_andThen h2 (fun w hw => dirOk_callHook _ (dirOk_state h2 hs1 hw)))

theorem reduce_circuit_static_fn_access_inv (r : Reducer) (gt : Bool)
    (circuit_static_fn_access : CircuitStaticFunctionAccessExpression)
    (s : DirState) (hs : s.in_circuit = gt) :
    DirOk s (reduce_circuit_static_fn_access r gt circuit_static_fn_access s) := by
  match circuit_static_fn_access with
  | .mk ccircuit cname span =>
    rw [reduce_circuit_static_fn_access]
    have h1 := reduce_expression_inv r gt ccircuit s hs
    exact dirOk_andThen h1 (fun v hv =>
      let hs1 := dirOk_state h1 hs hv
      let h2 := reduce_identifier_inv r cname _
      dirOk_andThen h2 (fun w hw => dirOk_callHook _ (dirOk_state h2 hs1 hw)))

theorem reduce_call_inv (r : Reducer) (gt : Bool) (call : CallExpression)
    (s : DirState) (hs : s.in_circuit = gt) :
    DirOk s (reduce_call r gt call s) := by
  match call with
  | .mk cfunction carguments span =>
    rw [reduce_call]
    have h1 := reduce_expression_inv r gt cfunction s hs
    exact dirOk_andThen h1 (fun v hv =>
      let hs1 := dirOk_state h1 hs hv
      let h2 := reduce_expression_list_inv r gt carguments _ hs1
      dirOk_andThen h2 (fun w hw => dirOk_callHook _ (dirOk_state h2 hs1 hw)))

end

theorem reduce_return_inv (r : Reducer) (gt : Bool)
    (return_statement : ReturnStatement) (s : DirState) (hs : s.in_circuit = gt) :
    DirOk s (reduce_return r gt return_statement s) := by
  match return_statement with
  | .mk rexpression span =>
    rw [reduce_return]
    have h1 := reduce_expression_inv r gt rexpression s hs
    exact dirOk_andThen h1 (fun v hv => dirOk_callHook _ (dirOk_state h1 hs hv))

theorem reduce_variable_name_inv (r : Reducer) (variable_name : VariableName)
    (s : DirState) : DirOk s (reduce_variable_name r variable_name s) := by
  match variable_name with
  | .mk vmut videntifier span =>
    rw [reduce_variable_name]
    exact dirOk_andThen (reduce_identifier_inv r videntifier s)
      (fun v hv => dirOk_pure _ _)

theorem reduce_variable_name_list_inv (r : Reducer) (vs : List VariableName)
    (s : DirState) : DirOk s (reduce_variable_name_list r vs s) := by
  match vs with
  | [] => exact dirOk_pure _ _
  | v :: rest =>
    rw [reduce_variable_name_list]
    exact dirOk_andThen (reduce_variable_name_inv r v s) (fun x hx =>
      dirOk_andThen (reduce_variable_name_list_inv r rest _)
        (fun w hw => dirOk_pure _ _))

theorem reduce_definition_inv (r : Reducer) (gt : Bool)
    (definition : DefinitionStatement) (s : DirState) (hs : s.in_circuit = gt) :
    DirOk s (reduce_definition r gt definition s) := by
  match definition with
  | .mk dnames dtype dvalue span =>
    rw [reduce_definition]
    have h1 := reduce_variable_name_list_inv r dnames s
    exact dirOk_andThen h1 (fun v hv =>
      let hs1 := dirOk_state h1 hs hv
      let h2 := reduce_type_option_inv r gt dtype span _ hs1
      dirOk_andThen h2 (fun w hw =>
        let hs2 := dirOk_state h2 hs1 hw
        let h3 := reduce_expression_inv r gt dvalue _ hs2
        dirOk_andThen h3 (fun u hu => dirOk_callHook _ (dirOk_state h3 hs2 hu))))

theorem reduce_assignee_access_inv (r : Reducer) (gt : Bool)
    (access : AssigneeAccess) (s : DirState) (hs : s.in_circuit = gt) :
    DirOk s (reduce_assignee_access r gt access s) := by
  match access with
  | .arrayRange aleft aright =>
    rw [reduce_assignee_access]
    have h1 : DirOk s (andThen (reduce_expression_option r gt aleft s) fun left s =>
        andThen (reduce_expression_option r gt aright s) fun right s =>
        ((.ok (AssigneeAccess.arrayRange left right) : Except CanonicalizeError AssigneeAccess), s)) := by
      have ha := reduce_expression_option_inv r gt aleft s hs
      exact dirOk_andThen ha (fun v hv =>
        dirOk_andThen (reduce_expression_option_inv r gt aright _ (dirOk_state ha hs hv))
          (fun w hw => dirOk_pure _ _))
    exact dirOk_andThen h1 (fun v hv => dirOk_callHook _ (dirOk_state h1 hs hv))
  | .arrayIndex index =>
    rw [reduce_assignee_access]
    have h1 : DirOk s (andThen (reduce_expression r gt index s) fun i s =>
        ((.ok (AssigneeAccess.arrayIndex i) : Except CanonicalizeError AssigneeAccess), s)) :=
      dirOk_andThen (reduce_expression_inv r gt index s hs)
        (fun v hv => dirOk_pure _ _)
    exact dirOk_andThen h1 (fun v hv => dirOk_callHook _ (dirOk_state h1 hs hv))
  | .member identifier =>
    rw [reduce_assignee_access]
    have h1 : DirOk s (andThen (reduce_identifier r identifier s) fun i s =>
        ((.ok (AssigneeAccess.member i) : Except CanonicalizeError AssigneeAccess), s)) :=
      dirOk_andThen (reduce_identifier_inv r identifier s)
        (fun v hv => dirOk_pure _ _)
    exact dirOk_andThen h1 (fun v hv => dirOk_callHook _ (dirOk_state h1 hs hv))
  | .tuple index span =>
    rw [reduce_assignee_access]
    · exact dirOk_andThen (dirOk_pure _ _) (fun v hv => dirOk_callHook _ hs)
    all_goals simp

theorem reduce_assignee_access_list_inv (r : Reducer) (gt : Bool)
    (accesses : List AssigneeAccess) (s : DirState) (hs : s.in_circuit = gt) :
    DirOk s (reduce_assignee_access_list r gt accesses s) := by
  match accesses with
  | [] => exact dirOk_pure _ _
  | a :: rest =>
    rw [reduce_assignee_access_list]
    have h1 := reduce_assignee_access_inv r gt a s hs
    exact dirOk_andThen h1 (fun v hv =>
      dirOk_andThen
        (reduce_assignee_access_list_inv r gt rest _ (dirOk_state h1 hs hv))
        (fun w hw => dirOk_pure _ _))

theorem reduce_assignee_inv (r : Reducer) (gt : Bool) (assignee : Assignee)
    (s : DirState) (hs : s.in_circuit = gt) :
    DirOk s (reduce_assignee r gt assignee s) := by
  match assignee with
  | .mk aidentifier aaccesses span =>
    rw [reduce_assignee]
    have h1 := reduce_identifier_inv r aidentifier s
    exact dirOk_andThen h1 (fun v hv =>
      let hs1 := dirOk_state h1 hs hv
      let h2 := reduce_assignee_access_list_inv r gt aaccesses _ hs1
      dirOk_andThen h2 (fun w hw => dirOk_callHook _ (dirOk_state h2 hs1 hw)))

theorem reduce_assign_inv (r : Reducer) (gt : Bool) (assign : AssignStatement)
    (s : DirState) (hs : s.in_circuit = gt) :
    DirOk s (reduce_assign r gt assign s) := by
  match assign with
  | .mk op aassignee avalue span =>
    rw [reduce_assign]
    have h1 := reduce_assignee_inv r gt aassignee s hs
    exact dirOk_andThen h1 (fun v hv =>
      let hs1 := dirOk_state h1 hs hv
      let h2 := reduce_expression_inv r gt avalue _ hs1
      dirOk_andThen h2 (fun w hw => dirOk_callHook _ (dirOk_state h2 hs1 hw)))

theorem reduce_console_inv (r : Reducer) (gt : Bool)
    (console_function_call : ConsoleStatement) (s : DirState)
    (hs : s.in_circuit = gt) : DirOk s (reduce_console r gt console_function_call s) := by
  match console_function_call with
  | .mk (.assert expression) span =>
    rw [reduce_console]
    have h1 : DirOk s (andThen (reduce_expression r gt expression s) fun e s =>
        ((.ok (ConsoleFunction.assert e) : Except CanonicalizeError ConsoleFunction), s)) :=
      dirOk_andThen (reduce_expression_inv r gt expression s hs)
        (fun v hv => dirOk_pure _ _)
    exact dirOk_andThen h1 (fun v hv => dirOk_callHook _ (dirOk_state h1 hs hv))
  | .mk (.debug (.mk parts parameters fspan)) span =>
    rw [reduce_console]
    have h1 : DirOk s (andThen (reduce_expression_list r gt parameters s) fun params s =>
        ((.ok (ConsoleFunction.debug (FormatString.mk parts params fspan)) :
          Except CanonicalizeError ConsoleFunction), s)) :=
      dirOk_andThen (reduce_expression_list_inv r gt parameters s hs)
        (fun v hv => dirOk_pure _ _)
    exact dirOk_andThen h1 (fun v hv => dirOk_callHook _ (dirOk_state h1 hs hv))
  | .mk (.error (.mk parts parameters fspan)) span =>
    rw [reduce_console]
    have h1 : DirOk s (andThen (reduce_expression_list r gt parameters s) fun params s =>
        ((.ok (ConsoleFunction.error (FormatString.mk parts params fspan)) :
          Except CanonicalizeError ConsoleFunction), s)) :=
      dirOk_andThen (reduce_expression_list_inv r gt parameters s hs)
        (fun v hv => dirOk_pure _ _)
    exact dirOk_andThen h1 (fun v hv => dirOk_callHook _ (dirOk_state h1 hs hv))
  | .mk (.log (.mk parts parameters fspan)) span =>
    rw [reduce_console]
    have h1 : DirOk s (andThen (reduce_expression_list r gt parameters s) fun params s =>
        ((.ok (ConsoleFunction.log (FormatString.mk parts params fspan)) :
          Except CanonicalizeError ConsoleFunction), s)) :=
      dirOk_andThen (reduce_expression_list_inv r gt parameters s hs)
        (fun v hv => dirOk_pure _ _)
    exact dirOk_andThen h1 (fun v hv => dirOk_callHook _ (dirOk_state h1 hs hv))

theorem reduce_expression_statement_inv (r : Reducer) (gt : Bool)
    (expression : ExpressionStatement) (s : DirState) (hs : s.in_circuit = gt) :
    DirOk s (reduce_expression_statement r gt expression s) := by
  match expression with
  | .mk einner span =>
    rw [reduce_expression_statement]
    have h1 := reduce_expression_inv r gt einner s hs
    exact dirOk_andThen h1 (fun v hv => dirOk_callHook _ (dirOk_state h1 hs hv))

mutual

theorem reduce_statement_inv (r : Reducer) (gt : Bool) (statement : Statement)
    (s : DirState) (hs : s.in_circuit = gt) :
    DirOk s (reduce_statement r gt statement s) := by
  match statement with
  | .ret return_statement =>
    rw [reduce_statement]
    have h1 : DirOk s (andThen (reduce_return r gt return_statement s) fun x s =>
        ((.ok (Statement.ret x) : Except CanonicalizeError Statement), s)) :=
      dirOk_andThen (reduce_return_inv r gt return_statement s hs)
        (fun v hv => dirOk_pure _ _)
    exact dirOk_andThen h1 (fun v hv => dirOk_callHook _ (dirOk_state h1 hs hv))
  | .definition definition =>
    rw [reduce_statement]
    have h1 : DirOk s (andThen (reduce_definition r gt definition s) fun x s =>
        ((.ok (Statement.definition x) : Except CanonicalizeError Statement), s)) :=
      dirOk_andThen (reduce_definition_inv r gt definition s hs)
        (fun v hv => dirOk_pure _ _)
    exact dirOk_andThen h1 (fun v hv => dirOk_callHook _ (dirOk_state h1 hs hv))
  | .assign assign =>
    rw [reduce_statement]
    have h1 : DirOk s (andThen (reduce_assign r gt assign s) fun x s =>
        ((.ok (Statement.assign x) : Except CanonicalizeError Statement), s)) :=
      dirOk_andThen (reduce_assign_inv r gt assign s hs)
        (fun v hv => dirOk_pure _ _)
    exact dirOk_andThen h1 (fun v hv => dirOk_callHook _ (dirOk_state h1 hs hv))
  | .conditional conditional =>
    rw [reduce_statement]
    have h1 : DirOk s (andThen (reduce_conditional r gt conditional s) fun x s =>
        ((.ok (Statement.conditional x) : Except CanonicalizeError Statement), s)) :=
      dirOk_andThen (reduce_conditional_inv r gt conditional s hs)
        (fun v hv => dirOk_pure _ _)
    exact dirOk_andThen h1 (fun v hv => dirOk_callHook _ (dirOk_state h1 hs hv))
  | .iteration iteration =>
    rw [reduce_statement]
    have h1 : DirOk s (andThen (reduce_iteration r gt iteration s) fun x s =>
        ((.ok (Statement.iteration x) : Except CanonicalizeError Statement), s)) :=
      dirOk_andThen (reduce_iteration_inv r gt iteration s hs)
        (fun v hv => dirOk_pure _ _)
    exact dirOk_andThen h1 (fun v hv => dirOk_callHook _ (dirOk_state h1 hs hv))
  | .console console =>
    rw [reduce_statement]
    have h1 : DirOk s (andThen (reduce_console r gt console s) fun x s =>
        ((.ok (Statement.console x) : Except CanonicalizeError Statement), s)) :=
      dirOk_andThen (reduce_console_inv r gt console s hs)
        (fun v hv => dirOk_pure _ _)
    exact dirOk_andThen h1 (fun v hv => dirOk_callHook _ (dirOk_state h1 hs hv))
  | .expression expression =>
    rw [reduce_statement]
    have h1 : DirOk s (andThen (reduce_expression_statement r gt expression s) fun x s =>
        ((.ok (Statement.expression x) : Except CanonicalizeError Statement), s)) :=
      dirOk_andThen (reduce_expression_statement_inv r gt expression s hs)
        (fun v hv => dirOk_pure _ _)
    exact dirOk_andThen h1 (fun v hv => dirOk_callHook _ (dirOk_state h1 hs hv))
  | .block block =>
    rw [reduce_statement]
    have h1 : DirOk s (andThen (reduce_block r gt block s) fun x s =>
        ((.ok (Statement.block x) : Except CanonicalizeError Statement), s)) :=
      dirOk_andThen (reduce_block_inv r gt block s hs)
        (fun v hv => dirOk_pure _ _)
    exact dirOk_andThen h1 (fun v hv => dirOk_callHook _ (dirOk_state h1 hs hv))

theorem reduce_conditional_inv (r : Reducer) (gt : Bool)
    (conditional : ConditionalStatement) (s : DirState) (hs : s.in_circuit = gt) :
    DirOk s (reduce_conditional r gt conditional s) := by
  match conditional with
  | .mk ccondition cblock cnext span =>
    rw [reduce_conditional]
    have h1 := reduce_expression_inv r gt ccondition s hs
    exact dirOk_andThen h1 (fun v hv =>
      let hs1 := dirOk_state h1 hs hv
      let h2 := reduce_block_inv r gt cblock _ hs1
      dirOk_andThen h2 (fun w hw =>
        let hs2 := dirOk_state h2 hs1 hw
        let h3 := reduce_statement_option_inv r gt cnext _ hs2
        dirOk_andThen h3 (fun u hu => dirOk_callHook _ (dirOk_state h3 hs2 hu))))

theorem reduce_statement_option_inv (r : Reducer) (gt : Bool)
    (o : Option Statement) (s : DirState) (hs : s.in_circuit = gt) :
    DirOk s (reduce_statement_option r gt o s) := by
  match o with
  | none => exact dirOk_pure _ _
  | some st =>
    rw [reduce_statement_option]
    exact dirOk_andThen (reduce_statement_inv r gt st s hs)
      (fun v hv => dirOk_pure _ _)

theorem reduce_iteration_inv (r : Reducer) (gt : Bool)
    (iteration : IterationStatement) (s : DirState) (hs : s.in_circuit = gt) :
    DirOk s (reduce_iteration r gt iteration s) := by
  match iteration with
  | .mk ivariable istart istop iblock span =>
    rw [reduce_iteration]
    have h1 := reduce_identifier_inv r ivariable s
    exact dirOk_andThen h1 (fun v hv =>
      let hs1 := dirOk_state h1 hs hv
      let h2 := reduce_expression_inv r gt istart _ hs1
      dirOk_andThen h2 (fun w hw =>
        let hs2 := dirOk_state h2 hs1 hw
        let h3 := reduce_expression_inv r gt istop _ hs2
        dirOk_andThen h3 (fun u hu =>
          let hs3 := dirOk_state h3 hs2 hu
          let h4 := reduce_block_inv r gt iblock _ hs3
          dirOk_andThen h4 (fun y hy => dirOk_callHook _ (dirOk_state h4 hs3 hy)))))

theorem reduce_block_inv (r : Reducer) (gt : Bool) (block : Block)
    (s : DirState) (hs : s.in_circuit = gt) :
    DirOk s (reduce_block r gt block s) := by
  match block with
  | .mk bstatements span =>
    rw [reduce_block]
    have h1 := reduce_statement_list_inv r gt bstatements s hs
    exact dirOk_andThen h1 (fun v hv => dirOk_callHook _ (dirOk_state h1 hs hv))

theorem reduce_statement_list_inv (r : Reducer) (gt : Bool)
    (sts : List Statement) (s : DirState) (hs : s.in_circuit = gt) :
    DirOk s (reduce_statement_list r gt sts s) := by
  match sts with
  | [] => exact dirOk_pure _ _
  | st :: rest =>
    rw [reduce_statement_list]
    have h1 := reduce_statement_inv r gt st s hs
    exact dirOk_andThen h1 (fun v hv =>
      dirOk_andThen
        (reduce_statement_list_inv r gt rest _ (dirOk_state h1 hs hv))
        (fun w hw => dirOk_pure _ _))

end

theorem reduce_function_input_variable_inv (r : Reducer) (gt : Bool)
    (var : FunctionInputVariable) (s : DirState) (hs : s.in_circuit = gt) :
    DirOk s (reduce_function_input_variable r gt var s) := by
  match var with
  | .mk videntifier vmut vtype span =>
    rw [reduce_function_input_variable]
    have h1 := reduce_identifier_inv r videntifier s
    exact dirOk_andThen h1 (fun v hv =>
      let hs1 := dirOk_state h1 hs hv
      let h2 := reduce_type_inv r gt vtype span _ hs1
      dirOk_andThen h2 (fun w hw => dirOk_callHook _ (dirOk_state h2 hs1 hw)))

theorem reduce_function_input_inv (r : Reducer) (gt : Bool)
    (input : FunctionInput) (s : DirState) (hs : s.in_circuit = gt) :
    DirOk s (reduce_function_input r gt input s) := by
  match input with
  | .variable_ function_input_variable =>
    rw [reduce_function_input]
    have h1 : DirOk s (andThen
        (reduce_function_input_variable r gt function_input_variable s) fun v s =>
        ((.ok (FunctionInput.variable_ v) : Except CanonicalizeError FunctionInput), s)) :=
      dirOk_andThen
        (reduce_function_input_variable_inv r gt function_input_variable s hs)
        (fun v hv => dirOk_pure _ _)
    exact dirOk_andThen h1 (fun v hv => dirOk_callHook _ (dirOk_state h1 hs hv))
  | .inputKeyword span =>
    rw [reduce_function_input]
    · exact dirOk_andThen (dirOk_pure _ _) (fun v hv => dirOk_callHook _ hs)
    all_goals simp
  | .selfKeyword span =>
    rw [reduce_function_input]
    · exact dirOk_andThen (dirOk_pure _ _) (fun v hv => dirOk_callHook _ hs)
    all_goals simp
  | .mutSelfKeyword span =>
    rw [reduce_function_input]
    · exact dirOk_andThen (dirOk_pure _ _) (fun v hv => dirOk_callHook _ hs)
    all_goals simp

theorem reduce_function_input_list_inv (r : Reducer) (gt : Bool)
    (inputs : List FunctionInput) (s : DirState) (hs : s.in_circuit = gt) :
    DirOk s (reduce_function_input_list r gt inputs s) := by
  match inputs with
  | [] => exact dirOk_pure _ _
  | i :: rest =>
    rw [reduce_function_input_list]
    have h1 := reduce_function_input_inv r gt i s hs
    exact dirOk_andThen h1 (fun v hv =>
      dirOk_andThen
        (reduce_function_input_list_inv r gt rest _ (dirOk_state h1 hs hv))
        (fun w hw => dirOk_pure _ _))

theorem reduce_package_or_packages_inv (r : Reducer)
    (package_or_packages : PackageOrPackages) (s : DirState) :
    DirOk s (reduce_package_or_packages r package_or_packages s) := by
  match package_or_packages with
  | .package (.mk pname access span) =>
    rw [reduce_package_or_packages]
    exact dirOk_andThen
      (dirOk_andThen (reduce_identifier_inv r pname s) (fun v hv => dirOk_pure _ _))
      (fun v hv => dirOk_pure _ _)
  | .packages (.mk pname accesses span) =>
    rw [reduce_package_or_packages]
    exact dirOk_andThen
      (dirOk_andThen (reduce_identifier_inv r pname s) (fun v hv => dirOk_pure _ _))
      (fun v hv => dirOk_pure _ _)

theorem reduce_import_inv (r : Reducer) (importStmt : ImportStatement)
    (s : DirState) : DirOk s (reduce_import r importStmt s) := by
  match importStmt with
  | .mk ipp span =>
    rw [reduce_import]
    exact dirOk_andThen (reduce_package_or_packages_inv r ipp s)
      (fun v hv => dirOk_pure _ _)

theorem reduce_import_list_inv (r : Reducer) (imports : List ImportStatement)
    (s : DirState) : DirOk s (reduce_import_list r imports s) := by
  match imports with
  | [] => exact dirOk_pure _ _
  | i :: rest =>
    rw [reduce_import_list]
    exact dirOk_andThen (reduce_import_inv r i s) (fun v hv =>
      dirOk_andThen (reduce_import_list_inv r rest _)
        (fun w hw => dirOk_pure _ _))

theorem reduce_annotation_node_inv (r : Reducer) (a : AnnotationNode)
    (s : DirState) : DirOk s (reduce_annotation_node r a s) := by
  match a with
  | .mk span aname arguments =>
    rw [reduce_annotation_node]
    exact dirOk_andThen (reduce_identifier_inv r aname s)
      (fun v hv => dirOk_pure _ _)

theorem reduce_annotation_node_list_inv (r : Reducer) (l : List AnnotationNode)
    (s : DirState) : DirOk s (reduce_annotation_node_list r l s) := by
  match l with
  | [] => exact dirOk_pure _ _
  | a :: rest =>
    rw [reduce_annotation_node_list]
    exact dirOk_andThen (reduce_annotation_node_inv r a s) (fun v hv =>
      dirOk_andThen (reduce_annotation_node_list_inv r rest _)
        (fun w hw => dirOk_pure _ _))

theorem reduce_function_inv (r : Reducer) (gt : Bool) (function : Function)
    (s : DirState) (hs : s.in_circuit = gt) :
    DirOk s (reduce_function r gt function s) := by
  match function with
  | .mk fidentifier fannotations finput foutput fblock span =>
    rw [reduce_function]
    have h1 := reduce_identifier_inv r fidentifier s
    exact dirOk_andThen h1 (fun v hv =>
      let hs1 := dirOk_state h1 hs hv
      let h2 := reduce_annotation_node_list_inv r fannotations _
      dirOk_andThen h2 (fun w hw =>
        let hs2 := dirOk_state h2 hs1 hw
        let h3 := reduce_function_input_list_inv r gt finput _ hs2
        dirOk_andThen h3 (fun u hu =>
          let hs3 := dirOk_state h3 hs2 hu
          let h4 := reduce_type_option_inv r gt foutput span _ hs3
          dirOk_andThen h4 (fun y hy =>
            let hs4 := dirOk_state h4 hs3 hy
            let h5 := reduce_block_inv r gt fblock _ hs4
            dirOk_andThen h5 (fun z hz =>
              dirOk_callHook _ (dirOk_state h5 hs4 hz))))))

/-- The toggle-and-restore pattern of `reduce_circuit_member`: if the
member's contents behave well from the toggled state, the whole method
behaves well from the original state — the log stays valid, and a
successful return restores `in_circuit` (`!(!b) = b`). -/
theorem dirOk_member {α β : Type} {s : DirState}
    {M : Except CanonicalizeError α × DirState}
    {hook : α → Except CanonicalizeError β}
    (hM : DirOk { s with in_circuit := !s.in_circuit } M) :
    DirOk s (andThen M (fun new s2 =>
      (hook new, { s2 with in_circuit := !s2.in_circuit }))) := by
  obtain ⟨res, s2⟩ := M
  cases res with
  | error e =>
    simp only [andThen]
    exact ⟨hM.1, fun w hw => Except.noConfusion hw⟩
  | ok v =>
    simp only [andThen]
    refine ⟨hM.1, fun w hw => ?_⟩
    have h2 : s2.in_circuit = !s.in_circuit := hM.2 v rfl
    show (!s2.in_circuit) = s.in_circuit
    rw [h2, Bool.not_not]

theorem reduce_circuit_member_inv (r : Reducer) (circuit_member : CircuitMember)
    (s : DirState) (hs : s.in_circuit = false) :
    DirOk s (reduce_circuit_member r circuit_member s) := by
  have hs1 : ({ s with in_circuit := !s.in_circuit } : DirState).in_circuit = true := by
    simp [hs]
  match circuit_member with
  | .circuitVariable identifier type_ =>
    rw [reduce_circuit_member]
    refine dirOk_member ?_
    have h1 := reduce_identifier_inv r identifier
      ({ s with in_circuit := !s.in_circuit })
    exact dirOk_andThen h1 (fun v hv =>
      dirOk_andThen
        (reduce_type_inv r true type_ identifier.span _ (dirOk_state h1 hs1 hv))
        (fun w hw => dirOk_pure _ _))
  | .circuitFunction function =>
    rw [reduce_circuit_member]
    refine dirOk_member ?_
    exact dirOk_andThen
      (reduce_function_inv r true function _ hs1)
      (fun v hv => dirOk_pure _ _)

theorem reduce_circuit_member_list_inv (r : Reducer)
    (members : List CircuitMember) (s : DirState) (hs : s.in_circuit = false) :
    DirOk s (reduce_circuit_member_list r members s) := by
  match members with
  | [] => exact dirOk_pure _ _
  | m :: rest =>
    rw [reduce_circuit_member_list]
    have h1 := reduce_circuit_member_inv r m s hs
    exact dirOk_andThen h1 (fun v hv =>
      dirOk_andThen
        (reduce_circuit_member_list_inv r rest _ (dirOk_state h1 hs hv))
        (fun w hw => dirOk_pure _ _))

theorem reduce_circuit_inv (r : Reducer) (circuit : Circuit) (s : DirState)
    (hs : s.in_circuit = false) : DirOk s (reduce_circuit r circuit s) := by
  match circuit with
  | .mk cname cmembers =>
    rw [reduce_circuit]
    have h1 := reduce_identifier_inv r cname s
    exact dirOk_andThen h1 (fun v hv =>
      dirOk_andThen
        (reduce_circuit_member_list_inv r cmembers _ (dirOk_state h1 hs hv))
        (fun w hw => dirOk_pure _ _))

theorem reduce_circuit_pair_list_inv (r : Reducer)
    (l : List (Identifier × Circuit)) (s : DirState) (hs : s.in_circuit = false) :
    DirOk s (reduce_circuit_pair_list r l s) := by
  match l with
  | [] => exact dirOk_pure _ _
  | (identifier, circuit) :: rest =>
    rw [reduce_circuit_pair_list]
    have h1 := reduce_identifier_inv r identifier s
    exact dirOk_andThen h1 (fun v hv =>
      let hs1 := dirOk_state h1 hs hv
      let h2 := reduce_circuit_inv r circuit _ hs1
      dirOk_andThen h2 (fun w hw =>
        dirOk_andThen
          (reduce_circuit_pair_list_inv r rest _ (dirOk_state h2 hs1 hw))
          (fun u hu => dirOk_pure _ _)))

theorem reduce_function_pair_list_inv (r : Reducer)
    (l : List (Identifier × Function)) (s : DirState) (hs : s.in_circuit = false) :
    DirOk s (reduce_function_pair_list r l s) := by
  match l with
  | [] => exact dirOk_pure _ _
  | (identifier, function) :: rest =>
    rw [reduce_function_pair_list]
    have h1 := reduce_identifier_inv r identifier s
    exact dirOk_andThen h1 (fun v hv =>
      let hs1 := dirOk_state h1 hs hv
      let h2 := reduce_function_inv r false function _ hs1
      dirOk_andThen h2 (fun w hw =>
        dirOk_andThen
          (reduce_function_pair_list_inv r rest _ (dirOk_state h2 hs1 hw))
          (fun u hu => dirOk_pure _ _)))

theorem reduce_program_inv (r : Reducer) (program : Program) (s : DirState)
    (hs : s.in_circuit = false) : DirOk s (reduce_program r program s) := by
  match program with
  | .mk pinputs pimports pcircuits pfunctions =>
    rw [reduce_program]
    have h1 := reduce_function_input_list_inv r false pinputs s hs
    exact dirOk_andThen h1 (fun v hv =>
      let hs1 := dirOk_state h1 hs hv
      let h2 := reduce_import_list_inv r pimports _
      dirOk_andThen h2 (fun w hw =>
        let hs2 := dirOk_state h2 hs1 hw
        let h3 := reduce_circuit_pair_list_inv r pcircuits _ hs2
        dirOk_andThen h3 (fun u hu =>
          let hs3 := dirOk_state h3 hs2 hu
          let h4 := reduce_function_pair_list_inv r pfunctions _ hs3
          dirOk_andThen h4 (fun y hy => dirOk_pure _ _))))

/-- C9 counterexample: `reduce_circuit_member` does not leave the
`in_circuit` flag at its entry value when it returns with an error: with a
reducer whose `reduce_identifier` hook fails, reducing a circuit variable
member from the fresh director state returns an error with the flag still
toggled to `true` (the `?` returns before the second toggle). -/
theorem claim_C9_counterexample :
    (reduce_circuit_member failReducer
      (.circuitVariable ⟨"x", ⟨1, 2⟩⟩ .boolean) initialState).1 =
        .error ⟨"fail"⟩ ∧
    (reduce_circuit_member failReducer
      (.circuitVariable ⟨"x", ⟨1, 2⟩⟩ .boolean) initialState).2.in_circuit = true ∧
    initialState.in_circuit = false := by
  refine ⟨?_, ?_, rfl⟩ <;>
    simp [reduce_circuit_member, reduce_identifier, failReducer, idReducer,
      andThen, initialState]

/-- C9 amended: in a traversal started from a fresh director
(`in_circuit = false`), every hook that receives the `in_circuit` flag
receives `true` exactly when the node being reduced lies within the body of
a circuit member (the logged flag always equals the ground truth), and on
a successful return the director's flag is back to `false`; a method that
returns an error from within a circuit member may instead leave the flag
toggled. -/
theorem claim_C9_amended (r : Reducer) (p : Program) :
    (∀ q ∈ (reduce_program r p initialState).2.hook_flags, q.1 = q.2) ∧
    (∀ w, (reduce_program r p initialState).1 = .ok w →
      (reduce_program r p initialState).2.in_circuit = false) := by
  have h := reduce_program_inv r p initialState rfl
  refine ⟨h.1 ?_, h.2⟩
  intro q hq
  exact absurd hq (List.not_mem_nil q)

theorem claim_C9_amended_witness :
    ((true, true).1 = (true, true).2) ∧
    (reduce_program idReducer sampleProgram initialState).2.in_circuit = false := by
  constructor
  · apply (claim_C9_amended idReducer sampleProgram).1 (true, true)
    simp [reduce_program, sampleProgram, sampleCircuit, initialState,
      reduce_function_input_list, reduce_import_list, reduce_circuit_pair_list,
      reduce_function_pair_list, reduce_identifier, reduce_circuit,
      reduce_circuit_member_list, reduce_circuit_member, reduce_type,
      idReducer, andThen, callHook]
  · apply (claim_C9_amended idReducer sampleProgram).2 sampleProgram
    simp [reduce_program, sampleProgram, sampleCircuit, initialState,
      reduce_function_input_list, reduce_import_list, reduce_circuit_pair_list,
      reduce_function_pair_list, reduce_identifier, reduce_circuit,
      reduce_circuit_member_list, reduce_circuit_member, reduce_type,
      idReducer, andThen, callHook]

end Leo
